import Mathlib

/-! # beter-feed-consumer: a shallow embedding and its verified properties

The development embeds the four source modules

* `src/UpdateHubMessageValidator.js` (classification of one update message),
* `src/FeedLifecycleTiming.js` (the lifecycle timing tracker),
* `src/SignalrConsumer.js` (the connection state machine),
* `src/ApplicationLogic.js` (the orchestrator's event handlers),

as pure functions over explicit state, and proves properties of them.

Conventions of the embedding:

* a JavaScript value is a `JsVal`; numbers are split into integer-valued numbers
  (`int`, unbounded) and the numbers that are not integers (`fractional`, `nan`,
  `infinity`), because the code only ever asks whether a number is an integer,
  compares integers and subtracts integers;
* a function that may throw returns its outcome together with the state it leaves
  behind, so that a mutation made before a `throw` stays visible;
* an `async` function returns `Except`: `error` is a rejected promise;
* `Date.now()` is an explicit argument `now`;
* a difference of two integer-valued numbers interpolated into a log message is the
  text of the double it rounds to (`differenceText`);
* the logger is an output: every component accumulates the entries it writes
  (level and message; the context object passed next to a message is left out);
* `emit` appends to the list of emitted events of the consumer.
-/

namespace BeterFeedConsumer

/-! ## JavaScript values -/

/-- A decoded JavaScript value, as the transport or a test can hand it to the code. -/
inductive JsVal where
  | undefined
  | null
  | bool (b : Bool)
  | int (i : Int)
  | fractional (floor : Int)
  | nan
  | infinity (negative : Bool)
  | str (s : String)
  | arr (items : List JsVal)
  | obj (fields : List (String × JsVal))

/-- A thrown value: always an `Error` object (hence truthy). `extendableError` is the
repository's `ExtendableError(message, extra)`, `typeError` the runtime's error for a
property read on `null` or `undefined`, `transportError` an error raised by the hub
transport. -/
inductive JsError where
  | transportError (message : String)
  | typeError (message : String)
  | extendableError (message : String) (extra : JsVal)
  | extendableErrorCausedBy (message : String) (cause : JsError)

namespace JsVal

/-- The lodash predicate `_.isInteger`. -/
def isInteger : JsVal → Bool
  | int _ => true
  | _ => false

/-- The numeric value of an integer-valued number; the code reads it only after
`_.isInteger` has answered true. -/
def intValue : JsVal → Int
  | int i => i
  | _ => 0

/-- The lodash predicate `_.isArray`. -/
def isArrayValue : JsVal → Bool
  | arr _ => true
  | _ => false

/-- The lodash predicate `_.isPlainObject`. -/
def isPlainObject : JsVal → Bool
  | obj _ => true
  | _ => false

/-- The lodash predicate `_.has(value, key)` for a single own key. -/
def has (v : JsVal) (key : String) : Bool :=
  match v with
  | obj fields => (fields.lookup key).isSome
  | _ => false

/-- Truthiness, as tested by `if (v)` and `v && ...`. -/
def truthy : JsVal → Bool
  | undefined => false
  | null => false
  | bool b => b
  | int i => i != 0
  | fractional _ => true
  | nan => false
  | infinity _ => true
  | str s => s != ""
  | arr _ => true
  | obj _ => true

/-- The property read `v.key` for the keys the code uses (`length`, `msgType`,
`status`, `timestamp`): it throws on `null` and `undefined`, and is `undefined`
where the key is absent. -/
def getProp (v : JsVal) (key : String) : Except JsError JsVal :=
  match v with
  | undefined => .error (.typeError ("Cannot read properties of undefined (reading " ++ key ++ ")"))
  | null => .error (.typeError ("Cannot read properties of null (reading " ++ key ++ ")"))
  | obj fields => .ok ((fields.lookup key).getD undefined)
  | arr items => .ok (if key = "length" then int items.length else undefined)
  | str s => .ok (if key = "length" then int s.length else undefined)
  | _ => .ok undefined

/-- The property read `v.key` where the code has already established that `v` is
neither `null` nor `undefined`. -/
def getPropD (v : JsVal) (key : String) : JsVal :=
  match getProp v key with
  | .ok x => x
  | .error _ => undefined

/-- Strict equality `v === k` with an integer literal `k`. -/
def strictEqInt (v : JsVal) (k : Int) : Bool :=
  match v with
  | int i => i == k
  | _ => false

/-- Strict equality `v === s` with a string literal `s`. -/
def strictEqStr (v : JsVal) (s : String) : Bool :=
  match v with
  | str t => t == s
  | _ => false

/-- The element read `v[0]` of an array. -/
def first : JsVal → JsVal
  | arr (x :: _) => x
  | _ => undefined

end JsVal

/-! ## `src/UpdateHubMessageValidator.js` -/

namespace UpdateHubMessageValidator

/-- The source's `isArray`. -/
def isArray (data : JsVal) : Bool :=
  data.isArrayValue

/-- The source's `isNonEmptyArray`: `isArray(data) && data.length > 0`. -/
def isNonEmptyArray (data : JsVal) : Bool :=
  isArray data && decide ((data.getPropD "length").intValue > 0)

/-- The source's `isValidUpdateMessage`:
`_.isPlainObject(data) && _.has(data, 'msgType') && _.isInteger(data.msgType)`. -/
def isValidUpdateMessage (data : JsVal) : Bool :=
  data.isPlainObject && data.has "msgType" && (data.getPropD "msgType").isInteger

/-- The source's `isValidSnapshotData`: `isValidUpdateMessage(data) && data.msgType === 2`. -/
def isValidSnapshotData (data : JsVal) : Bool :=
  isValidUpdateMessage data && (data.getPropD "msgType").strictEqInt 2

/-- The source's `isValidNonSnapshotData`:
`isValidUpdateMessage(data) && (data.msgType !== 2)`. -/
def isValidNonSnapshotData (data : JsVal) : Bool :=
  isValidUpdateMessage data && !((data.getPropD "msgType").strictEqInt 2)

end UpdateHubMessageValidator

/-- A keyed structure whose `msgType` field is an integer: the spec's valid message. -/
def IsKeyedWithIntegerMsgType (m : JsVal) : Prop :=
  ∃ fields n, m = .obj fields ∧ fields.lookup "msgType" = some (.int n)

/-! ## Logging -/

/-- The four levels of the logging collaborator. -/
inductive LogLevel where
  | debug
  | info
  | warn
  | error
  deriving DecidableEq, Repr

/-- One call of the logger: its level and its message. -/
structure LogEntry where
  level : LogLevel
  message : String
  deriving DecidableEq, Repr

/-! ## Subtraction and interpolation of integer-valued numbers

A JavaScript number is an IEEE-754 double. The tracker subtracts integer-valued numbers
and interpolates the difference into a log message; both steps are exact below `2 ^ 53`
and round above it. -/

/-- How many low bits a natural number loses when it is kept to 53 significant bits. -/
def droppedBits : Nat → Nat → Nat
  | 0, _ => 0
  | fuel + 1, m => if m < 2 ^ 53 then 0 else droppedBits fuel (m / 2) + 1

/-- The double nearest to a natural number, ties going to the even significand, given
as a natural number; a result of `2 ^ 1024` or more stands for an overflow. -/
def roundToDouble (m : Nat) : Nat :=
  if m < 2 ^ 53 then m
  else
    let shift := droppedBits m m
    let q := m / 2 ^ shift
    let r := m % 2 ^ shift
    if r > 2 ^ (shift - 1) ∨ (r = 2 ^ (shift - 1) ∧ q % 2 = 1) then (q + 1) * 2 ^ shift
    else q * 2 ^ shift

/-- The decimal with the fewest significant digits that still reads back as the double
`v`, the one closest to `v` where two have as few: the candidates are the multiples of
`10 ^ e` next to `v`, tried from the largest `e` down. -/
def shortestDecimal (v : Nat) : Nat → Nat
  | 0 => v
  | e + 1 =>
    let lo := v / 10 ^ (e + 1) * 10 ^ (e + 1)
    let hi := lo + 10 ^ (e + 1)
    if roundToDouble lo = v then
      if roundToDouble hi = v then
        if v - lo < hi - v then lo
        else if hi - v < v - lo then hi
        else if (lo / 10 ^ (e + 1)) % 2 = 0 then lo
        else hi
      else lo
    else if roundToDouble hi = v then hi
    else shortestDecimal v e

/-- The text of a non-negative integer-valued number in a template literal: its decimal
digits below `2 ^ 53`; above, the shortest decimal that reads back as the number, written
out in full below `10 ^ 21` and in exponent form from there on. -/
def numberText (m : Nat) : String :=
  if m < 2 ^ 53 then toString m
  else
    let digits := Nat.toDigits 10 (shortestDecimal m ((Nat.toDigits 10 m).length - 1))
    if digits.length ≤ 21 then digits.asString
    else
      match (digits.reverse.dropWhile (fun c => c == '0')).reverse with
      | [] => "0"
      | [d] => String.singleton d ++ "e+" ++ toString (digits.length - 1)
      | d :: rest =>
        String.singleton d ++ "." ++ rest.asString ++ "e+" ++ toString (digits.length - 1)

/-- The text of `a - b` in a template literal, for integer-valued numbers `a` and `b`:
the difference is rounded to a double, or overflows to an infinity when the rounded
magnitude reaches `2 ^ 1024` (when a bit is left after a shift by 1024 places). -/
def differenceText (a b : Int) : String :=
  if roundToDouble (a - b).natAbs >>> 1024 ≠ 0 then
    if a - b < 0 then "-Infinity" else "Infinity"
  else if a - b < 0 then "-" ++ numberText (roundToDouble (a - b).natAbs)
  else numberText (roundToDouble (a - b).natAbs)

/-! ## `src/FeedLifecycleTiming.js` -/

/-- The fields of a `FeedLifecycleTiming` instance, with the entries it has logged. -/
structure FeedLifecycleTiming where
  lastSeenHeartbeat : Int
  connectedTime : Int
  firstSnapshotTime : Int
  firstNonSnapshotTime : Int
  lastSnapshotTime : Int
  disconnectedTime : Int
  log : List LogEntry
  deriving DecidableEq, Repr

/-- What a call leaves behind: whether it returned or threw, and the state after it. -/
abbrev Outcome (σ : Type) := Except JsError Unit × σ

namespace FeedLifecycleTiming

/-- The constructor: every field is 0 and nothing has been logged. -/
def new : FeedLifecycleTiming :=
  { lastSeenHeartbeat := 0, connectedTime := 0, firstSnapshotTime := 0,
    firstNonSnapshotTime := 0, lastSnapshotTime := 0, disconnectedTime := 0, log := [] }

/-- A call of the scoped logger at level `level`. -/
def logAt (level : LogLevel) (message : String) (t : FeedLifecycleTiming) :
    FeedLifecycleTiming :=
  { t with log := t.log ++ [{ level := level, message := message }] }

/-- The source's `reset`. -/
def reset (t : FeedLifecycleTiming) : FeedLifecycleTiming :=
  { t with lastSeenHeartbeat := 0, connectedTime := 0, firstSnapshotTime := 0,
           firstNonSnapshotTime := 0, lastSnapshotTime := 0, disconnectedTime := 0 }

/-- The guard every `track*` method opens with: `!_.isInteger(x) || x <= 0`. -/
def rejects (x : JsVal) : Bool :=
  !x.isInteger || decide (x.intValue ≤ 0)

/-- The error thrown by the guard: `new ExtendableError(name + ' must be a positive
integer', {name: x})`. -/
def invalidArgument (name : String) (x : JsVal) : JsError :=
  .extendableError (name ++ " must be a positive integer") (.obj [(name, x)])

/-- The source's `trackConnected`. -/
def trackConnected (connectedTime : JsVal) (t : FeedLifecycleTiming) :
    Outcome FeedLifecycleTiming :=
  if rejects connectedTime then
    (.error (invalidArgument "connectedTime" connectedTime), t)
  else
    (.ok (), { t with connectedTime := connectedTime.intValue })

/-- The source's `trackDisconnected`. -/
def trackDisconnected (disconnectedTime : JsVal) (t : FeedLifecycleTiming) :
    Outcome FeedLifecycleTiming :=
  if rejects disconnectedTime then
    (.error (invalidArgument "disconnectedTime" disconnectedTime), t)
  else
    (.ok (), { reset t with disconnectedTime := disconnectedTime.intValue })

/-- The source's `trackFirstSnapshotData`. -/
def trackFirstSnapshotData (firstSnapshotDataTime : JsVal) (t : FeedLifecycleTiming) :
    Outcome FeedLifecycleTiming :=
  if rejects firstSnapshotDataTime then
    (.error (invalidArgument "firstSnapshotDataTime" firstSnapshotDataTime), t)
  else if t.firstSnapshotTime ≠ 0 then
    (.ok (), t)
  else
    let t1 := { t with firstSnapshotTime := firstSnapshotDataTime.intValue }
    if t1.connectedTime = 0 then
      (.ok (), t1.logAt .error
        "First snapshot data was tracked, but connection was not. Make sure the connection is tracked.")
    else
      (.ok (), t1.logAt .info
        ("Time from the connection to the first snapshot data: "
          ++ differenceText t1.firstSnapshotTime t1.connectedTime))

/-- The source's `trackFirstNonSnapshotData`. -/
def trackFirstNonSnapshotData (firstNonSnapshotDataTime : JsVal) (t : FeedLifecycleTiming) :
    Outcome FeedLifecycleTiming :=
  if rejects firstNonSnapshotDataTime then
    (.error (invalidArgument "firstNonSnapshotDataTime" firstNonSnapshotDataTime), t)
  else if t.firstNonSnapshotTime ≠ 0 then
    (.ok (), t)
  else
    let t1 := { t with firstNonSnapshotTime := firstNonSnapshotDataTime.intValue }
    if t1.connectedTime = 0 then
      (.ok (), t1.logAt .error
        "First non-snapshot data was tracked, but connection was not. Make sure the connection is tracked.")
    else
      (.ok (), t1.logAt .info
        ("Time from the connection to the first snapshot data: "
          ++ differenceText t1.firstNonSnapshotTime t1.connectedTime))

/-- The source's `trackHeartbeat`; `now` is the value of `Date.now()`. -/
def trackHeartbeat (now : Int) (heartbeat : JsVal) (t : FeedLifecycleTiming) :
    Outcome FeedLifecycleTiming :=
  if rejects heartbeat then
    (.error (invalidArgument "heartbeat" heartbeat), t)
  else
    let t1 :=
      if t.lastSeenHeartbeat ≠ 0 then
        t.logAt .info
          ("Interval between prev heartbeat: "
            ++ differenceText heartbeat.intValue t.lastSeenHeartbeat ++ " ms"
            ++ ", local and server time diff: "
            ++ differenceText now heartbeat.intValue ++ " ms")
      else if t.connectedTime = 0 then
        t.logAt .error
          "First heartbeat was tracked, but connection was not. Make sure the connection is tracked."
      else
        t.logAt .info
          ("Time from the connection to the first heartbeat: "
            ++ differenceText heartbeat.intValue t.connectedTime ++ " ms")
    (.ok (), { t1 with lastSeenHeartbeat := heartbeat.intValue })

/-- The source's `trackLastSnapshotData`. -/
def trackLastSnapshotData (lastSnapshotDataTime : JsVal) (t : FeedLifecycleTiming) :
    Outcome FeedLifecycleTiming :=
  if rejects lastSnapshotDataTime then
    (.error (invalidArgument "lastSnapshotDataTime" lastSnapshotDataTime), t)
  else
    let t1 := { t with lastSnapshotTime := lastSnapshotDataTime.intValue }
    let t2 :=
      if t1.firstSnapshotTime = 0 then
        t1.logAt .error
          "Last snapshot data was tracked, but first data was not. Make sure the first snapshot data is tracked."
      else
        t1.logAt .info
          ("Time from the first snapshot data to the last snapshot data: "
            ++ differenceText t1.lastSnapshotTime t1.firstSnapshotTime ++ " ms")
    let t3 :=
      if t2.connectedTime = 0 then
        t2.logAt .error
          "Last snapshot data was tracked, but connection was not. Make sure the connection is tracked."
      else
        t2.logAt .info
          ("Time from the connection to the last snapshot data: "
            ++ differenceText t2.lastSnapshotTime t2.connectedTime ++ " ms")
    (.ok (), t3)

end FeedLifecycleTiming

/-- A positive integer, the only timestamp the tracker accepts according to the spec. -/
def IsPositiveInteger (x : JsVal) : Prop :=
  ∃ n : Int, 0 < n ∧ x = .int n

/-! ## `src/SignalrConsumer.js` -/

/-- The four status constants `STATUS_STOPPED` (1), `STATUS_STARTED` (2),
`STATUS_STARTING` (3) and `STATUS_STOPPING` (4). -/
inductive Status where
  | stopped
  | started
  | starting
  | stopping
  deriving DecidableEq, Repr

/-- One call of `emit(name, channel, payload)`. -/
structure Event where
  name : String
  channel : String
  payload : JsVal

/-- The message of a thrown error. -/
def JsError.message : JsError → String
  | .transportError m => m
  | .typeError m => m
  | .extendableError m _ => m
  | .extendableErrorCausedBy m _ => m

/-- The state of a `SignalrConsumer`: its status and connection id, whether its two
remote-call handlers are registered on the hub connection (the connection keeps a
handler at most once per name), the events emitted so far and the entries logged. -/
structure SignalrConsumer where
  status : Status
  connectionId : Option String
  channel : String
  onUpdateRegistered : Bool
  onHeartbeatRegistered : Bool
  emitted : List Event
  log : List LogEntry

namespace SignalrConsumer

/-- The constructor: stopped, no connection id, no handler registered. -/
def new (channel : String) : SignalrConsumer :=
  { status := .stopped, connectionId := none, channel := channel,
    onUpdateRegistered := false, onHeartbeatRegistered := false, emitted := [], log := [] }

/-- The source's `isStarted`. -/
def isStarted (s : SignalrConsumer) : Bool :=
  s.status == .started

/-- The source's `isStopped`. -/
def isStopped (s : SignalrConsumer) : Bool :=
  s.status == .stopped

/-- A call of the scoped logger. -/
def logAt (level : LogLevel) (message : String) (s : SignalrConsumer) : SignalrConsumer :=
  { s with log := s.log ++ [{ level := level, message := message }] }

/-- A call of `this.emit(name, this._channel, payload)`. -/
def emit (name : String) (payload : JsVal) (s : SignalrConsumer) : SignalrConsumer :=
  { s with emitted := s.emitted ++ [{ name := name, channel := s.channel, payload := payload }] }

/-- The connection id as a JavaScript value: a string or `null`. -/
def connectionIdValue : Option String → JsVal
  | some c => .str c
  | none => .null

/-- The object `{status, connectionId, timestamp}` passed with a `connectionStatus` event. -/
def statusData (status : String) (connectionId : Option String) (timestamp : Int) : JsVal :=
  .obj [("status", .str status), ("connectionId", connectionIdValue connectionId),
        ("timestamp", .int timestamp)]

/-- The source's `start` up to `await this._connection.start()`. -/
def startBegin (s : SignalrConsumer) : Outcome SignalrConsumer :=
  if !s.isStopped then
    (.error (.extendableError "SignalrConsumer is not stopped and can not be started so" .undefined), s)
  else
    (.ok (), { s with status := .starting, onUpdateRegistered := true,
                      onHeartbeatRegistered := true })

/-- The source's `start` from the point where `await this._connection.start()` settles:
`connectResult` is the connection id of the opened connection, or the error the
transport failed with; `now` is the value of `Date.now()`. -/
def startResume (now : Int) (connectResult : Except JsError (Option String))
    (s : SignalrConsumer) : Outcome SignalrConsumer :=
  match connectResult with
  | .ok connectionId =>
    let s1 := { s with status := .started, connectionId := connectionId }
    let s2 := s1.logAt .info "Connected to Feed"
    (.ok (), s2.emit "connectionStatus" (statusData "connected" s2.connectionId now))
  | .error err =>
    let s1 := { s with status := .stopped }
    (.error (.extendableErrorCausedBy "SignalrConsumer failed to start" err),
      s1.logAt .error err.message)

/-- The source's `start`, with nothing happening while it awaits the transport. -/
def start (now : Int) (connectResult : Except JsError (Option String))
    (s : SignalrConsumer) : Outcome SignalrConsumer :=
  match startBegin s with
  | (.error e, s1) => (.error e, s1)
  | (.ok (), s1) => startResume now connectResult s1

/-- The source's `_postStopActions`; `now` is the value of `Date.now()`. -/
def _postStopActions (now : Int) (s : SignalrConsumer) : SignalrConsumer :=
  let s1 := { s with onUpdateRegistered := false, onHeartbeatRegistered := false }
  let s2 := s1.emit "connectionStatus" (statusData "disconnected" s1.connectionId now)
  { s2 with connectionId := none, status := .stopped }

/-- The source's `stop` up to `await this._connection.stop()`. -/
def stopBegin (s : SignalrConsumer) : Outcome SignalrConsumer :=
  if !s.isStarted then
    (.error (.extendableError "SignalrConsumer is not started and can not be stopped so" .undefined), s)
  else
    (.ok (), { s with status := .stopping })

/-- The source's `stop` from the point where `await this._connection.stop()` settles:
`closeError` is the error the transport close failed with, if it failed. -/
def stopResume (now : Int) (closeError : Option JsError) (s : SignalrConsumer) :
    Outcome SignalrConsumer :=
  let s1 := _postStopActions now s
  match closeError with
  | some errorDuringStop => (.error errorDuringStop, s1)
  | none => (.ok (), s1)

/-- The source's `stop`, with nothing happening while it awaits the transport. -/
def stop (now : Int) (closeError : Option JsError) (s : SignalrConsumer) :
    Outcome SignalrConsumer :=
  match stopBegin s with
  | (.error e, s1) => (.error e, s1)
  | (.ok (), s1) => stopResume now closeError s1

/-- The source's `_onSignalrConnectionClose`: `error` is the error carried by the close
notification, if it carries one. -/
def _onSignalrConnectionClose (now : Int) (error : Option JsError) (s : SignalrConsumer) :
    SignalrConsumer :=
  match error with
  | some _ => _postStopActions now (s.logAt .error "SignalR client unexpectedly disconnected")
  | none => s

/-- The source's `_onSignalrReconnecting`. -/
def _onSignalrReconnecting (s : SignalrConsumer) : SignalrConsumer :=
  s.logAt .warn "SignalR client fired reconnecting event"

/-- The source's `_onSignalrReconnected`. -/
def _onSignalrReconnected (s : SignalrConsumer) : SignalrConsumer :=
  s.logAt .warn "SignalR client fired reconnected event"

/-- The source's `_onUpdate`: the read `data.length` comes first and throws on `null`
and `undefined`. The value interpolated into the debug message is left out. -/
def _onUpdate (data : JsVal) (s : SignalrConsumer) : Outcome SignalrConsumer :=
  match data.getProp "length" with
  | .error e => (.error e, s)
  | .ok _ => (.ok (), (s.logAt .debug "Invocation OnUpdate: received updates").emit "data" data)

/-- The source's `_onHeartbeat`. The value interpolated into the debug message is left
out. -/
def _onHeartbeat (data : JsVal) (s : SignalrConsumer) : Outcome SignalrConsumer :=
  (.ok (), (s.logAt .debug "Invocation OnHeartbeat").emit "heartbeat" data)

/-- The event emitted by one run of the cleanup. -/
def disconnectedEvent (channel : String) (connectionId : Option String) (now : Int) : Event :=
  { name := "connectionStatus", channel := channel,
    payload := statusData "disconnected" connectionId now }

/-- The number of `connectionStatus` events with status `disconnected` in a list of
events. -/
def disconnectedCount (events : List Event) : Nat :=
  (events.filter (fun e =>
    e.name == "connectionStatus" && (e.payload.getPropD "status").strictEqStr "disconnected")).length

end SignalrConsumer

/-! ## `src/ApplicationLogic.js` -/

/-- The three bound handlers the orchestrator attaches to the consumer. -/
inductive Listener where
  | onUpdate
  | onHeartbeat
  | onConnectionStatusChange
  deriving DecidableEq, Repr

/-- The state of an `ApplicationLogic`: its consumer, the listeners attached to the
consumer's emitter (in order of attachment, repetitions kept), its tracker and the
entries it has logged. -/
structure ApplicationLogic where
  consumer : SignalrConsumer
  listeners : List Listener
  feedLifecycleTiming : FeedLifecycleTiming
  log : List LogEntry

namespace ApplicationLogic

/-- The constructor. -/
def new (channel : String) : ApplicationLogic :=
  { consumer := SignalrConsumer.new channel, listeners := [],
    feedLifecycleTiming := FeedLifecycleTiming.new, log := [] }

/-- A call of the scoped logger. -/
def logAt (level : LogLevel) (message : String) (a : ApplicationLogic) : ApplicationLogic :=
  { a with log := a.log ++ [{ level := level, message := message }] }

/-- A tracker call made by a handler: the tracker's state is kept, its outcome is the
handler's. -/
def withTracker (r : Outcome FeedLifecycleTiming) (a : ApplicationLogic) :
    Outcome ApplicationLogic :=
  (r.1, { a with feedLifecycleTiming := r.2 })

/-- The source's `_onUpdate`; the read `updatesArray.length` in the first statement
throws on `null` and `undefined`. -/
def _onUpdate (now : Int) (_channel : String) (updatesArray : JsVal) (a : ApplicationLogic) :
    Outcome ApplicationLogic :=
  match updatesArray.getProp "length" with
  | .error e => (.error e, a)
  | .ok _ =>
    let a1 := a.logAt .info "Received data from onUpdate hub"
    if UpdateHubMessageValidator.isNonEmptyArray updatesArray then
      let firstElement := updatesArray.first
      if UpdateHubMessageValidator.isValidSnapshotData firstElement then
        withTracker (a1.feedLifecycleTiming.trackFirstSnapshotData (.int now)) a1
      else if UpdateHubMessageValidator.isValidNonSnapshotData firstElement then
        withTracker (a1.feedLifecycleTiming.trackFirstNonSnapshotData (.int now)) a1
      else
        (.ok (), a1.logAt .error
          "Invalid data format of the first element of the array received from onUpdate hub")
    else
      withTracker (a1.feedLifecycleTiming.trackLastSnapshotData (.int now)) a1

/-- The source's `_onHeartbeat`. -/
def _onHeartbeat (now : Int) (_channel : String) (heartbeat : JsVal) (a : ApplicationLogic) :
    Outcome ApplicationLogic :=
  let a1 := a.logAt .debug "Received data from onHeartbeat hub"
  withTracker (a1.feedLifecycleTiming.trackHeartbeat now heartbeat) a1

/-- The source's `_onConnectionStatusChange`. -/
def _onConnectionStatusChange (_channel : String) (statusData : JsVal) (a : ApplicationLogic) :
    Outcome ApplicationLogic :=
  if statusData.truthy && (statusData.getPropD "status").truthy then
    if (statusData.getPropD "status").strictEqStr "connected" then
      match a.feedLifecycleTiming.trackConnected (statusData.getPropD "timestamp") with
      | (.error e, t) => (.error e, { a with feedLifecycleTiming := t })
      | (.ok (), t) =>
        (.ok (), logAt .info "Connection status has changed" { a with feedLifecycleTiming := t })
    else if (statusData.getPropD "status").strictEqStr "disconnected" then
      match a.feedLifecycleTiming.trackDisconnected (statusData.getPropD "timestamp") with
      | (.error e, t) => (.error e, { a with feedLifecycleTiming := t })
      | (.ok (), t) =>
        (.ok (), logAt .warn "Connection status has changed" { a with feedLifecycleTiming := t })
    else
      (.ok (), a)
  else
    (.ok (), a)

/-- One listener called by `emit` for an event: `_onUpdate` listens to `data`,
`_onHeartbeat` to `heartbeat`, `_onConnectionStatusChange` to `connectionStatus`. The
handlers are `async`, so `emit` gets a promise back and a rejection never reaches the
emitting code: only the state the handler leaves behind is kept. -/
def runListener (now : Int) (e : Event) (l : Listener) (a : ApplicationLogic) :
    ApplicationLogic :=
  match l with
  | .onUpdate => if e.name = "data" then (_onUpdate now e.channel e.payload a).2 else a
  | .onHeartbeat => if e.name = "heartbeat" then (_onHeartbeat now e.channel e.payload a).2 else a
  | .onConnectionStatusChange =>
    if e.name = "connectionStatus" then (_onConnectionStatusChange e.channel e.payload a).2 else a

/-- The effect on the orchestrator of the events the consumer emits during one call:
each event is handed to every attached listener, in order. -/
def deliver (now : Int) (events : List Event) (a : ApplicationLogic) : ApplicationLogic :=
  events.foldl (fun acc e => acc.listeners.foldl (fun acc2 l => runListener now e l acc2) acc) a

/-- The source's `start`: `ntpTime` is the outcome of the clock probe (the line logged
from it, or the error it failed with), `connectResult` the outcome of the transport
connect. -/
def start (now : Int) (ntpTime : Except JsError String)
    (connectResult : Except JsError (Option String)) (a : ApplicationLogic) :
    Outcome ApplicationLogic :=
  let a1 := (a.logAt .info "Starting...").logAt .info "Fetching NTP time..."
  match ntpTime with
  | .error e => (.error e, a1)
  | .ok line =>
    let a2 := a1.logAt .info line
    let a3 := { a2 with
      listeners := a2.listeners ++
        [Listener.onUpdate, Listener.onHeartbeat, Listener.onConnectionStatusChange] }
    let a4 := a3.logAt .info "Starting consumer..."
    let r := a4.consumer.start now connectResult
    (r.1, deliver now (r.2.emitted.drop a4.consumer.emitted.length) { a4 with consumer := r.2 })

/-- The source's `stop`: `closeError` is the error the transport close failed with, if
it failed. -/
def stop (now : Int) (closeError : Option JsError) (a : ApplicationLogic) :
    Outcome ApplicationLogic :=
  let a1 := a.logAt .info "Stopping..."
  let r := a1.consumer.stop now closeError
  let a2 := deliver now (r.2.emitted.drop a1.consumer.emitted.length) { a1 with consumer := r.2 }
  match r.1 with
  | .error e => (.error e, a2)
  | .ok () =>
    (.ok (), { a2 with
      listeners := ((a2.listeners.erase .onUpdate).erase .onHeartbeat).erase
        .onConnectionStatusChange,
      feedLifecycleTiming := a2.feedLifecycleTiming.reset })

end ApplicationLogic

/-! ## Sequences of calls -/

/-- One call made on a tracker: `reset` or one of the six `track*` methods with its
argument (`trackHeartbeat` also with the value of `Date.now()`). -/
inductive TimingCall where
  | reset
  | trackConnected (x : JsVal)
  | trackDisconnected (x : JsVal)
  | trackFirstSnapshotData (x : JsVal)
  | trackFirstNonSnapshotData (x : JsVal)
  | trackHeartbeat (now : Int) (x : JsVal)
  | trackLastSnapshotData (x : JsVal)

/-- The tracker after one call, whether the call returned or threw. -/
def FeedLifecycleTiming.call (t : FeedLifecycleTiming) : TimingCall → FeedLifecycleTiming
  | .reset => t.reset
  | .trackConnected x => (t.trackConnected x).2
  | .trackDisconnected x => (t.trackDisconnected x).2
  | .trackFirstSnapshotData x => (t.trackFirstSnapshotData x).2
  | .trackFirstNonSnapshotData x => (t.trackFirstNonSnapshotData x).2
  | .trackHeartbeat now x => (t.trackHeartbeat now x).2
  | .trackLastSnapshotData x => (t.trackLastSnapshotData x).2

/-- The tracker after a sequence of calls, made one after the other. -/
def FeedLifecycleTiming.calls (t : FeedLifecycleTiming) (cs : List TimingCall) :
    FeedLifecycleTiming :=
  cs.foldl FeedLifecycleTiming.call t

/-- A consumer between two steps: its state, and how many calls of `start` and of `stop`
are suspended at their `await`. -/
structure ConsumerRun where
  consumer : SignalrConsumer
  pendingStarts : Nat
  pendingStops : Nat

/-- One step of a consumer: a call of `start` or `stop` running up to its `await` (or
to its `throw`), the transport settling such an `await`, a notification of the
transport, or the transport invoking a remote-call handler. -/
inductive ConsumerStep where
  | callStart
  | startSettles (now : Int) (connectResult : Except JsError (Option String))
  | callStop
  | stopSettles (now : Int) (closeError : Option JsError)
  | connectionClose (now : Int) (error : Option JsError)
  | reconnecting
  | reconnected
  | update (data : JsVal)
  | heartbeat (data : JsVal)

namespace ConsumerRun

/-- A newly constructed consumer, no call suspended. -/
def new (channel : String) : ConsumerRun :=
  { consumer := SignalrConsumer.new channel, pendingStarts := 0, pendingStops := 0 }

/-- The effect of one step; `none` where the step cannot happen: an `await` settles
only if a call is suspended at it, and the transport invokes a handler only while it is
registered. -/
def step (r : ConsumerRun) : ConsumerStep → Option ConsumerRun
  | .callStart =>
    match r.consumer.startBegin with
    | (.ok (), s) => some { r with consumer := s, pendingStarts := r.pendingStarts + 1 }
    | (.error _, s) => some { r with consumer := s }
  | .startSettles now connectResult =>
    if r.pendingStarts = 0 then none
    else some { r with consumer := (r.consumer.startResume now connectResult).2,
                       pendingStarts := r.pendingStarts - 1 }
  | .callStop =>
    match r.consumer.stopBegin with
    | (.ok (), s) => some { r with consumer := s, pendingStops := r.pendingStops + 1 }
    | (.error _, s) => some { r with consumer := s }
  | .stopSettles now closeError =>
    if r.pendingStops = 0 then none
    else some { r with consumer := (r.consumer.stopResume now closeError).2,
                       pendingStops := r.pendingStops - 1 }
  | .connectionClose now error =>
    some { r with consumer := r.consumer._onSignalrConnectionClose now error }
  | .reconnecting => some { r with consumer := r.consumer._onSignalrReconnecting }
  | .reconnected => some { r with consumer := r.consumer._onSignalrReconnected }
  | .update data =>
    if r.consumer.onUpdateRegistered then some { r with consumer := (r.consumer._onUpdate data).2 }
    else none
  | .heartbeat data =>
    if r.consumer.onHeartbeatRegistered then
      some { r with consumer := (r.consumer._onHeartbeat data).2 }
    else none

/-- A step that keeps the calls of `start` apart: `start` is not called while an earlier
call of `start` is still suspended. -/
def orderly (r : ConsumerRun) : ConsumerStep → Bool
  | .callStart => r.pendingStarts == 0
  | _ => true

/-- The state after a sequence of steps; `none` if one of them cannot happen. -/
def run (r : ConsumerRun) : List ConsumerStep → Option ConsumerRun
  | [] => some r
  | st :: rest =>
    match r.step st with
    | some r1 => run r1 rest
    | none => none

/-- The state after a sequence of steps that keeps the calls of `start` apart; `none` if
one of the steps cannot happen or is a call of `start` overlapping a suspended one. -/
def runOrderly (r : ConsumerRun) : List ConsumerStep → Option ConsumerRun
  | [] => some r
  | st :: rest =>
    if r.orderly st then
      match r.step st with
      | some r1 => runOrderly r1 rest
      | none => none
    else none

/-- What holds of a consumer between the steps of a run that keeps the calls of `start`
apart: a connection id is held only in the states `started` and `stopping`, at most one
`start` is suspended, and none is held while a `start` is suspended. -/
def Inv (r : ConsumerRun) : Prop :=
  (r.consumer.connectionId ≠ none →
    r.consumer.status = .started ∨ r.consumer.status = .stopping) ∧
  r.pendingStarts ≤ 1 ∧
  (0 < r.pendingStarts → r.consumer.connectionId = none)

end ConsumerRun

/-- Every phase field is 0 or a positive integer. -/
def FeedLifecycleTiming.FieldsValid (t : FeedLifecycleTiming) : Prop :=
  0 ≤ t.lastSeenHeartbeat ∧ 0 ≤ t.connectedTime ∧ 0 ≤ t.firstSnapshotTime ∧
  0 ≤ t.firstNonSnapshotTime ∧ 0 ≤ t.lastSnapshotTime ∧ 0 ≤ t.disconnectedTime

/-- The entries of a log written at level `warn`. -/
def warnings (log : List LogEntry) : List LogEntry :=
  log.filter (fun e => e.level == .warn)

/-- One call made on the orchestrator by the host process, with what the clock probe
and the transport answer during it. -/
inductive ApplicationCall where
  | start (now : Int) (ntpTime : Except JsError String)
      (connectResult : Except JsError (Option String))
  | stop (now : Int) (closeError : Option JsError)

namespace ApplicationLogic

/-- One call on the orchestrator: its outcome and the state it leaves. -/
def call (a : ApplicationLogic) : ApplicationCall → Outcome ApplicationLogic
  | .start now ntpTime connectResult => a.start now ntpTime connectResult
  | .stop now closeError => a.stop now closeError

/-- The orchestrator after a sequence of calls, each made when the one before it has
settled, whether it succeeded or failed. -/
def calls (a : ApplicationLogic) (cs : List ApplicationCall) : ApplicationLogic :=
  cs.foldl (fun acc c => (acc.call c).2) a

/-- Whether every call of a sequence succeeds. -/
def allSucceed (a : ApplicationLogic) : List ApplicationCall → Bool
  | [] => true
  | c :: rest =>
    match (a.call c).1 with
    | .ok _ => allSucceed (a.call c).2 rest
    | .error _ => false

/-- How many times a handler is attached to the consumer. -/
def attached (a : ApplicationLogic) (l : Listener) : Nat :=
  a.listeners.count l

end ApplicationLogic

/-- One step in the life of an orchestrator: a call made by the host process, a
notification of the transport to the consumer, or the transport invoking one of the
consumer's remote-call handlers (`now` is the value of `Date.now()` during the step). -/
inductive ApplicationStep where
  | call (c : ApplicationCall)
  | connectionClose (now : Int) (error : Option JsError)
  | reconnecting
  | reconnected
  | update (now : Int) (data : JsVal)
  | heartbeat (now : Int) (data : JsVal)

namespace ApplicationLogic

/-- The orchestrator once its consumer has handled something from the transport and is
in state `s`: the events the consumer emitted meanwhile reach the attached listeners. -/
def afterConsumer (now : Int) (s : SignalrConsumer) (a : ApplicationLogic) :
    ApplicationLogic :=
  deliver now (s.emitted.drop a.consumer.emitted.length) { a with consumer := s }

/-- One step: its outcome for the host process (a step of the transport has none to
report) and the state it leaves. The transport invokes a remote-call handler only while
the consumer has it registered. -/
def step (a : ApplicationLogic) : ApplicationStep → Outcome ApplicationLogic
  | .call c => a.call c
  | .connectionClose now error =>
    (.ok (), afterConsumer now (a.consumer._onSignalrConnectionClose now error) a)
  | .reconnecting => (.ok (), { a with consumer := a.consumer._onSignalrReconnecting })
  | .reconnected => (.ok (), { a with consumer := a.consumer._onSignalrReconnected })
  | .update now data =>
    if a.consumer.onUpdateRegistered then
      (.ok (), afterConsumer now (a.consumer._onUpdate data).2 a)
    else (.ok (), a)
  | .heartbeat now data =>
    if a.consumer.onHeartbeatRegistered then
      (.ok (), afterConsumer now (a.consumer._onHeartbeat data).2 a)
    else (.ok (), a)

/-- The orchestrator after a sequence of steps. -/
def steps (a : ApplicationLogic) (ss : List ApplicationStep) : ApplicationLogic :=
  ss.foldl (fun acc st => (acc.step st).2) a

/-- Whether every call in a sequence of steps succeeds. -/
def allStepsSucceed (a : ApplicationLogic) : List ApplicationStep → Bool
  | [] => true
  | st :: rest =>
    match (a.step st).1 with
    | .ok _ => allStepsSucceed (a.step st).2 rest
    | .error _ => false

end ApplicationLogic

/-- Whether a step is a close notification that carries an error. -/
def ApplicationStep.isErrorClose : ApplicationStep → Bool
  | .connectionClose _ (some _) => true
  | _ => false

/-! ## Sample states -/

/-- A tracker in the middle of a connection cycle: every field is set. -/
def sampleTiming : FeedLifecycleTiming :=
  { lastSeenHeartbeat := 150, connectedTime := 100, firstSnapshotTime := 110,
    firstNonSnapshotTime := 130, lastSnapshotTime := 120, disconnectedTime := 90,
    log := [{ level := .info, message := "Time from the connection to the first heartbeat: 50 ms" }] }

/-- A consumer that has been started on channel `inplay` with connection id `c1`. -/
def sampleStarted : SignalrConsumer :=
  { status := .started, connectionId := some "c1", channel := "inplay",
    onUpdateRegistered := true, onHeartbeatRegistered := true,
    emitted := [{ name := "connectionStatus", channel := "inplay",
                  payload := SignalrConsumer.statusData "connected" (some "c1") 1000 }],
    log := [{ level := .info, message := "Connected to Feed" }] }

/-- An orchestrator whose consumer is started and whose three handlers are attached. -/
def sampleApplication : ApplicationLogic :=
  { consumer := sampleStarted,
    listeners := [Listener.onUpdate, Listener.onHeartbeat, Listener.onConnectionStatusChange],
    feedLifecycleTiming := sampleTiming, log := [] }

/-! ## Properties of the message validator -/

open UpdateHubMessageValidator in
/-- The validity test of the source accepts exactly the keyed structures whose
`msgType` field is an integer. -/
theorem isValidUpdateMessage_iff (m : JsVal) :
    isValidUpdateMessage m = true ↔ IsKeyedWithIntegerMsgType m := by
  unfold IsKeyedWithIntegerMsgType
  cases m with
  | obj fields =>
    cases hl : fields.lookup "msgType" with
    | none =>
      simp [isValidUpdateMessage, JsVal.isPlainObject, JsVal.has, hl]
    | some v =>
      cases v <;>
        simp [isValidUpdateMessage, JsVal.isPlainObject, JsVal.has, JsVal.getPropD,
          JsVal.getProp, JsVal.isInteger, hl]
  | _ => simp [isValidUpdateMessage, JsVal.isPlainObject]

open UpdateHubMessageValidator in
/-- C2: for a keyed structure whose `msgType` field is the integer `n`,
`isValidSnapshotData` holds exactly when `n = 2` and `isValidNonSnapshotData` exactly
when `n ≠ 2`; hence exactly one of the two holds. -/
theorem C2_snapshot_iff_msgType_two (fields : List (String × JsVal)) (n : Int)
    (h : fields.lookup "msgType" = some (.int n)) :
    (isValidSnapshotData (.obj fields) = true ↔ n = 2) ∧
    (isValidNonSnapshotData (.obj fields) = true ↔ n ≠ 2) ∧
    (isValidSnapshotData (.obj fields) = !isValidNonSnapshotData (.obj fields)) := by
  simp [isValidSnapshotData, isValidNonSnapshotData, isValidUpdateMessage,
    JsVal.isPlainObject, JsVal.has, JsVal.getPropD, JsVal.getProp, JsVal.isInteger,
    JsVal.strictEqInt, h]

open UpdateHubMessageValidator in
/-- Witness of C2 at the messages `{msgType: 2, id: "a"}`. -/
theorem C2_snapshot_iff_msgType_two_witness :
    List.lookup "msgType" [("id", JsVal.str "a"), ("msgType", JsVal.int 2)] = some (.int 2) ∧
    ((isValidSnapshotData (.obj [("id", .str "a"), ("msgType", .int 2)]) = true ↔ (2 : Int) = 2) ∧
     (isValidNonSnapshotData (.obj [("id", .str "a"), ("msgType", .int 2)]) = true
        ↔ (2 : Int) ≠ 2) ∧
     (isValidSnapshotData (.obj [("id", .str "a"), ("msgType", .int 2)])
        = !isValidNonSnapshotData (.obj [("id", .str "a"), ("msgType", .int 2)]))) :=
  ⟨rfl, C2_snapshot_iff_msgType_two [("id", .str "a"), ("msgType", .int 2)] 2 rfl⟩

open UpdateHubMessageValidator in
/-- C3: a message is valid exactly when it is a keyed structure whose `msgType` field
is an integer, and it is classified Invalid (neither snapshot nor non-snapshot) exactly
when it is not; in particular a value that is not a keyed structure, a keyed structure
without `msgType`, and one whose `msgType` is not an integer are all Invalid. -/
theorem C3_invalid_iff_not_keyed_integer (m : JsVal) :
    (isValidUpdateMessage m = true ↔ IsKeyedWithIntegerMsgType m) ∧
    ((isValidSnapshotData m = false ∧ isValidNonSnapshotData m = false)
      ↔ ¬ IsKeyedWithIntegerMsgType m) ∧
    (m.isPlainObject = false →
      isValidSnapshotData m = false ∧ isValidNonSnapshotData m = false) ∧
    (∀ fields, m = .obj fields → fields.lookup "msgType" = none →
      isValidSnapshotData m = false ∧ isValidNonSnapshotData m = false) ∧
    (∀ fields v, m = .obj fields → fields.lookup "msgType" = some v → v.isInteger = false →
      isValidSnapshotData m = false ∧ isValidNonSnapshotData m = false) := by
  have hv := isValidUpdateMessage_iff m
  refine ⟨hv, ?_, ?_, ?_, ?_⟩
  · rw [← hv]
    cases hm : isValidUpdateMessage m <;>
      simp [isValidSnapshotData, isValidNonSnapshotData, hm]
  · intro hp
    simp [isValidSnapshotData, isValidNonSnapshotData, isValidUpdateMessage, hp]
  · intro fields hm hl
    subst hm
    simp [isValidSnapshotData, isValidNonSnapshotData, isValidUpdateMessage, JsVal.has, hl]
  · intro fields v hm hl hi
    subst hm
    simp [isValidSnapshotData, isValidNonSnapshotData, isValidUpdateMessage, JsVal.has,
      JsVal.getPropD, JsVal.getProp, hl, hi]

open UpdateHubMessageValidator in
/-- Witness of C3 at the message `{msgType: "2"}`, whose `msgType` is a string. -/
theorem C3_invalid_iff_not_keyed_integer_witness :
    isValidSnapshotData (.obj [("msgType", .str "2")]) = false ∧
    isValidNonSnapshotData (.obj [("msgType", .str "2")]) = false :=
  (C3_invalid_iff_not_keyed_integer (.obj [("msgType", .str "2")])).2.2.2.2
    [("msgType", .str "2")] (.str "2") rfl rfl rfl

/-! ## Properties of the lifecycle timing tracker -/

namespace FeedLifecycleTiming

/-- The guard of the `track*` methods fires exactly on the values that are not positive
integers. -/
theorem rejects_iff (x : JsVal) : rejects x = true ↔ ¬ IsPositiveInteger x := by
  unfold IsPositiveInteger
  cases x <;> simp [rejects, JsVal.isInteger, JsVal.intValue]

/-- The guard lets every positive integer through. -/
theorem rejects_int_of_pos (n : Int) (hn : 0 < n) : rejects (.int n) = false := by
  simp [rejects, JsVal.isInteger, JsVal.intValue, hn]

/-- A `track*` method whose guard fires throws and leaves the state as it was; one whose
guard does not fire returns. The six methods share this shape: `body` is what follows
the guard. -/
theorem guarded_outcome (name : String) (x : JsVal) (t : FeedLifecycleTiming)
    (body : FeedLifecycleTiming) :
    let r : Outcome FeedLifecycleTiming :=
      if rejects x then (.error (invalidArgument name x), t) else (.ok (), body)
    (r.1 = .error (invalidArgument name x) ↔ ¬ IsPositiveInteger x) ∧
    (r.1 = .ok () ↔ IsPositiveInteger x) ∧
    (∀ e, r.1 = .error e → r.2 = t) := by
  intro r
  cases hr : rejects x
  · have hp : IsPositiveInteger x := by
      by_contra hc
      rw [(rejects_iff x).mpr hc] at hr
      exact Bool.noConfusion hr
    simp [r, hr, hp]
  · have hp : ¬ IsPositiveInteger x := (rejects_iff x).mp hr
    simp [r, hr, hp]

/-- The method `trackConnected` is its guard followed by a body that returns. -/
theorem trackConnected_guarded (x : JsVal) (t : FeedLifecycleTiming) :
    trackConnected x t =
      if rejects x then (.error (invalidArgument "connectedTime" x), t)
      else (.ok (), (trackConnected x t).2) := by
  unfold trackConnected
  split_ifs <;> rfl

/-- The method `trackDisconnected` is its guard followed by a body that returns. -/
theorem trackDisconnected_guarded (x : JsVal) (t : FeedLifecycleTiming) :
    trackDisconnected x t =
      if rejects x then (.error (invalidArgument "disconnectedTime" x), t)
      else (.ok (), (trackDisconnected x t).2) := by
  unfold trackDisconnected
  split_ifs <;> rfl

/-- The method `trackFirstSnapshotData` is its guard followed by a body that returns. -/
theorem trackFirstSnapshotData_guarded (x : JsVal) (t : FeedLifecycleTiming) :
    trackFirstSnapshotData x t =
      if rejects x then (.error (invalidArgument "firstSnapshotDataTime" x), t)
      else (.ok (), (trackFirstSnapshotData x t).2) := by
  unfold trackFirstSnapshotData
  split_ifs
  · rfl
  · rfl
  · dsimp only
    split_ifs <;> rfl

/-- The method `trackFirstNonSnapshotData` is its guard followed by a body that returns. -/
theorem trackFirstNonSnapshotData_guarded (x : JsVal) (t : FeedLifecycleTiming) :
    trackFirstNonSnapshotData x t =
      if rejects x then (.error (invalidArgument "firstNonSnapshotDataTime" x), t)
      else (.ok (), (trackFirstNonSnapshotData x t).2) := by
  unfold trackFirstNonSnapshotData
  split_ifs
  · rfl
  · rfl
  · dsimp only
    split_ifs <;> rfl

/-- The method `trackHeartbeat` is its guard followed by a body that returns. -/
theorem trackHeartbeat_guarded (now : Int) (x : JsVal) (t : FeedLifecycleTiming) :
    trackHeartbeat now x t =
      if rejects x then (.error (invalidArgument "heartbeat" x), t)
      else (.ok (), (trackHeartbeat now x t).2) := by
  unfold trackHeartbeat
  split_ifs <;> rfl

/-- The method `trackLastSnapshotData` is its guard followed by a body that returns. -/
theorem trackLastSnapshotData_guarded (x : JsVal) (t : FeedLifecycleTiming) :
    trackLastSnapshotData x t =
      if rejects x then (.error (invalidArgument "lastSnapshotDataTime" x), t)
      else (.ok (), (trackLastSnapshotData x t).2) := by
  unfold trackLastSnapshotData
  split_ifs <;> rfl

end FeedLifecycleTiming

open FeedLifecycleTiming in
/-- C4: each of the six `track*` methods, in every tracker state, throws the
invalid-argument error exactly when its argument is not a positive integer, and returns
exactly when it is one. -/
theorem C4_track_raises_iff_not_positive_integer (now : Int) (ts : JsVal)
    (t : FeedLifecycleTiming) :
    (((trackConnected ts t).1 = .error (invalidArgument "connectedTime" ts)
        ↔ ¬ IsPositiveInteger ts) ∧
      ((trackConnected ts t).1 = .ok () ↔ IsPositiveInteger ts)) ∧
    (((trackDisconnected ts t).1 = .error (invalidArgument "disconnectedTime" ts)
        ↔ ¬ IsPositiveInteger ts) ∧
      ((trackDisconnected ts t).1 = .ok () ↔ IsPositiveInteger ts)) ∧
    (((trackFirstSnapshotData ts t).1 = .error (invalidArgument "firstSnapshotDataTime" ts)
        ↔ ¬ IsPositiveInteger ts) ∧
      ((trackFirstSnapshotData ts t).1 = .ok () ↔ IsPositiveInteger ts)) ∧
    (((trackFirstNonSnapshotData ts t).1
          = .error (invalidArgument "firstNonSnapshotDataTime" ts)
        ↔ ¬ IsPositiveInteger ts) ∧
      ((trackFirstNonSnapshotData ts t).1 = .ok () ↔ IsPositiveInteger ts)) ∧
    (((trackLastSnapshotData ts t).1 = .error (invalidArgument "lastSnapshotDataTime" ts)
        ↔ ¬ IsPositiveInteger ts) ∧
      ((trackLastSnapshotData ts t).1 = .ok () ↔ IsPositiveInteger ts)) ∧
    (((trackHeartbeat now ts t).1 = .error (invalidArgument "heartbeat" ts)
        ↔ ¬ IsPositiveInteger ts) ∧
      ((trackHeartbeat now ts t).1 = .ok () ↔ IsPositiveInteger ts)) := by
  refine ⟨?_, ?_, ?_, ?_, ?_, ?_⟩
  · rw [trackConnected_guarded]
    exact ⟨(guarded_outcome _ ts t _).1, (guarded_outcome _ ts t _).2.1⟩
  · rw [trackDisconnected_guarded]
    exact ⟨(guarded_outcome _ ts t _).1, (guarded_outcome _ ts t _).2.1⟩
  · rw [trackFirstSnapshotData_guarded]
    exact ⟨(guarded_outcome _ ts t _).1, (guarded_outcome _ ts t _).2.1⟩
  · rw [trackFirstNonSnapshotData_guarded]
    exact ⟨(guarded_outcome _ ts t _).1, (guarded_outcome _ ts t _).2.1⟩
  · rw [trackLastSnapshotData_guarded]
    exact ⟨(guarded_outcome _ ts t _).1, (guarded_outcome _ ts t _).2.1⟩
  · rw [trackHeartbeat_guarded]
    exact ⟨(guarded_outcome _ ts t _).1, (guarded_outcome _ ts t _).2.1⟩

open FeedLifecycleTiming in
/-- C5: whenever one of the six `track*` methods throws, the tracker (its six fields
and its log) is exactly what it was before the call; a rejected `trackDisconnected`
has not reset anything. -/
theorem C5_track_raise_leaves_state (now : Int) (ts : JsVal) (t : FeedLifecycleTiming)
    (e : JsError) :
    ((trackConnected ts t).1 = .error e → (trackConnected ts t).2 = t) ∧
    ((trackDisconnected ts t).1 = .error e → (trackDisconnected ts t).2 = t) ∧
    ((trackFirstSnapshotData ts t).1 = .error e → (trackFirstSnapshotData ts t).2 = t) ∧
    ((trackFirstNonSnapshotData ts t).1 = .error e →
      (trackFirstNonSnapshotData ts t).2 = t) ∧
    ((trackLastSnapshotData ts t).1 = .error e → (trackLastSnapshotData ts t).2 = t) ∧
    ((trackHeartbeat now ts t).1 = .error e → (trackHeartbeat now ts t).2 = t) := by
  refine ⟨?_, ?_, ?_, ?_, ?_, ?_⟩
  · rw [trackConnected_guarded]
    exact (guarded_outcome _ ts t _).2.2 e
  · rw [trackDisconnected_guarded]
    exact (guarded_outcome _ ts t _).2.2 e
  · rw [trackFirstSnapshotData_guarded]
    exact (guarded_outcome _ ts t _).2.2 e
  · rw [trackFirstNonSnapshotData_guarded]
    exact (guarded_outcome _ ts t _).2.2 e
  · rw [trackLastSnapshotData_guarded]
    exact (guarded_outcome _ ts t _).2.2 e
  · rw [trackHeartbeat_guarded]
    exact (guarded_outcome _ ts t _).2.2 e

open FeedLifecycleTiming in
/-- Witness of C5: the six methods called with 0 on a tracker whose fields are all set
throw and leave it as it was. -/
theorem C5_track_raise_leaves_state_witness :
    (trackConnected (.int 0) sampleTiming).2 = sampleTiming ∧
    (trackDisconnected (.int 0) sampleTiming).2 = sampleTiming ∧
    (trackFirstSnapshotData (.int 0) sampleTiming).2 = sampleTiming ∧
    (trackFirstNonSnapshotData (.int 0) sampleTiming).2 = sampleTiming ∧
    (trackLastSnapshotData (.int 0) sampleTiming).2 = sampleTiming ∧
    (trackHeartbeat 2000 (.int 0) sampleTiming).2 = sampleTiming :=
  ⟨(C5_track_raise_leaves_state 2000 (.int 0) sampleTiming
      (invalidArgument "connectedTime" (.int 0))).1 rfl,
   (C5_track_raise_leaves_state 2000 (.int 0) sampleTiming
      (invalidArgument "disconnectedTime" (.int 0))).2.1 rfl,
   (C5_track_raise_leaves_state 2000 (.int 0) sampleTiming
      (invalidArgument "firstSnapshotDataTime" (.int 0))).2.2.1 rfl,
   (C5_track_raise_leaves_state 2000 (.int 0) sampleTiming
      (invalidArgument "firstNonSnapshotDataTime" (.int 0))).2.2.2.1 rfl,
   (C5_track_raise_leaves_state 2000 (.int 0) sampleTiming
      (invalidArgument "lastSnapshotDataTime" (.int 0))).2.2.2.2.1 rfl,
   (C5_track_raise_leaves_state 2000 (.int 0) sampleTiming
      (invalidArgument "heartbeat" (.int 0))).2.2.2.2.2 rfl⟩

open FeedLifecycleTiming in
/-- C6: `trackFirstSnapshotData` and `trackFirstNonSnapshotData` are first-wins: called
with a positive integer on a tracker whose `firstSnapshotTime` (respectively
`firstNonSnapshotTime`) is already non-zero, they return and leave the tracker, its log
included, as it was; and on a new tracker `trackFirstSnapshotData(100)` followed by
`trackFirstSnapshotData(200)` leaves `firstSnapshotTime` at 100. -/
theorem C6_first_wins (t : FeedLifecycleTiming) (n : Int) (hn : 0 < n) :
    (t.firstSnapshotTime ≠ 0 → trackFirstSnapshotData (.int n) t = (.ok (), t)) ∧
    (t.firstNonSnapshotTime ≠ 0 → trackFirstNonSnapshotData (.int n) t = (.ok (), t)) ∧
    (trackFirstSnapshotData (.int 100) FeedLifecycleTiming.new).1 = .ok () ∧
    (trackFirstSnapshotData (.int 200)
      (trackFirstSnapshotData (.int 100) FeedLifecycleTiming.new).2).1 = .ok () ∧
    (trackFirstSnapshotData (.int 200)
      (trackFirstSnapshotData (.int 100) FeedLifecycleTiming.new).2).2.firstSnapshotTime
        = 100 := by
  have hr := rejects_int_of_pos n hn
  refine ⟨?_, ?_, rfl, rfl, rfl⟩
  · intro h
    simp [trackFirstSnapshotData, hr, h]
  · intro h
    simp [trackFirstNonSnapshotData, hr, h]

open FeedLifecycleTiming in
/-- Witness of C6: a second first-snapshot and a second first-incremental timestamp,
200, on a tracker that already holds 110 and 130. -/
theorem C6_first_wins_witness :
    trackFirstSnapshotData (.int 200) sampleTiming = (.ok (), sampleTiming) ∧
    trackFirstNonSnapshotData (.int 200) sampleTiming = (.ok (), sampleTiming) :=
  ⟨(C6_first_wins sampleTiming 200 (by decide)).1 (by decide),
   (C6_first_wins sampleTiming 200 (by decide)).2.1 (by decide)⟩

open FeedLifecycleTiming in
/-- C7: for every tracker state and every positive integer `n`, `trackDisconnected(n)`
returns, sets `disconnectedTime` to `n` and every other phase field to 0; it is `reset`
followed by the assignment of `disconnectedTime`. -/
theorem C7_trackDisconnected_resets (t : FeedLifecycleTiming) (n : Int) (hn : 0 < n) :
    trackDisconnected (.int n) t = (.ok (), { reset t with disconnectedTime := n }) ∧
    (trackDisconnected (.int n) t).2.disconnectedTime = n ∧
    (trackDisconnected (.int n) t).2.connectedTime = 0 ∧
    (trackDisconnected (.int n) t).2.firstSnapshotTime = 0 ∧
    (trackDisconnected (.int n) t).2.firstNonSnapshotTime = 0 ∧
    (trackDisconnected (.int n) t).2.lastSnapshotTime = 0 ∧
    (trackDisconnected (.int n) t).2.lastSeenHeartbeat = 0 ∧
    (trackDisconnected (.int n) t).2.log = t.log := by
  have hr := rejects_int_of_pos n hn
  simp [trackDisconnected, hr, reset, JsVal.intValue]

open FeedLifecycleTiming in
/-- Witness of C7: `trackDisconnected(500)` on a tracker whose fields are all set. -/
theorem C7_trackDisconnected_resets_witness :
    (0 : Int) < 500 ∧
    (trackDisconnected (.int 500) sampleTiming).2.disconnectedTime = 500 ∧
    (trackDisconnected (.int 500) sampleTiming).2.connectedTime = 0 :=
  ⟨by decide, (C7_trackDisconnected_resets sampleTiming 500 (by decide)).2.1,
    (C7_trackDisconnected_resets sampleTiming 500 (by decide)).2.2.1⟩

/-! ## Properties of the orchestrator's handlers -/

/-- A payload whose `status` reads as a string is a keyed structure, hence truthy. -/
theorem truthy_of_status (sd : JsVal) (st : String) (h : sd.getPropD "status" = .str st) :
    sd.truthy = true := by
  cases sd <;> simp [JsVal.getPropD, JsVal.getProp, JsVal.truthy] at h ⊢

open ApplicationLogic in
/-- C8, as the code has it: the handler of a `connectionStatus` event with status
`disconnected` and a positive integer timestamp `n` returns after calling
`trackDisconnected(n)` only, so that `disconnectedTime` is `n` and the other five
fields are 0; the reset that zeroes `disconnectedTime` too is made by the
orchestrator's `stop`, once the consumer's `stop` has succeeded. -/
theorem C8_disconnected_handler_tracks_only (a : ApplicationLogic) (channel : String)
    (sd : JsVal) (n : Int) (hn : 0 < n)
    (hs : sd.getPropD "status" = .str "disconnected")
    (ht : sd.getPropD "timestamp" = .int n) :
    (_onConnectionStatusChange channel sd a).1 = .ok () ∧
    (_onConnectionStatusChange channel sd a).2.feedLifecycleTiming
      = { a.feedLifecycleTiming.reset with disconnectedTime := n } ∧
    (_onConnectionStatusChange channel sd a).2.feedLifecycleTiming.disconnectedTime ≠ 0 ∧
    (∀ now, a.consumer.status = .started →
      (stop now none a).1 = .ok () ∧
      (stop now none a).2.feedLifecycleTiming
        = { lastSeenHeartbeat := 0, connectedTime := 0, firstSnapshotTime := 0,
            firstNonSnapshotTime := 0, lastSnapshotTime := 0, disconnectedTime := 0,
            log := (stop now none a).2.feedLifecycleTiming.log }) := by
  have hr := FeedLifecycleTiming.rejects_int_of_pos n hn
  have htr := truthy_of_status sd _ hs
  have hne : n ≠ 0 := by omega
  have hd : (JsVal.str "disconnected").truthy = true := by decide
  refine ⟨?_, ?_, ?_, ?_⟩
  · simp [_onConnectionStatusChange, hs, ht, htr, hd, JsVal.strictEqStr,
      FeedLifecycleTiming.trackDisconnected, hr]
  · simp [_onConnectionStatusChange, hs, ht, htr, hd, JsVal.strictEqStr,
      FeedLifecycleTiming.trackDisconnected, hr, logAt, JsVal.intValue]
  · simp [_onConnectionStatusChange, hs, ht, htr, hd, JsVal.strictEqStr,
      FeedLifecycleTiming.trackDisconnected, hr, logAt, JsVal.intValue, hne]
  · intro now hst
    have hok : ((a.logAt .info "Stopping...").consumer.stop now none).1 = .ok () := by
      simp [SignalrConsumer.stop, SignalrConsumer.stopBegin, SignalrConsumer.isStarted,
        SignalrConsumer.stopResume, logAt, hst]
    simp only [stop, hok]
    simp [FeedLifecycleTiming.reset]

open ApplicationLogic in
/-- Witness of C8: the `disconnected` event of connection `c1` at time 2000, handled
by an orchestrator whose tracker has every field set, and the `stop` of the same
orchestrator. -/
theorem C8_disconnected_handler_tracks_only_witness :
    (_onConnectionStatusChange "inplay"
        (SignalrConsumer.statusData "disconnected" (some "c1") 2000)
        sampleApplication).2.feedLifecycleTiming
      = { sampleTiming.reset with disconnectedTime := 2000 } ∧
    (stop 2000 none sampleApplication).1 = .ok () :=
  ⟨(C8_disconnected_handler_tracks_only sampleApplication "inplay"
      (SignalrConsumer.statusData "disconnected" (some "c1") 2000) 2000 (by decide)
      rfl rfl).2.1,
   ((C8_disconnected_handler_tracks_only sampleApplication "inplay"
      (SignalrConsumer.statusData "disconnected" (some "c1") 2000) 2000 (by decide)
      rfl rfl).2.2.2 2000 rfl).1⟩

open ApplicationLogic in
/-- C8 as stated fails: after the handler has processed the `disconnected` event of
connection `c1` with the valid timestamp 2000, `disconnectedTime` is 2000, not 0. -/
theorem C8_handler_leaves_disconnectedTime_counterexample :
    (_onConnectionStatusChange "inplay"
        (SignalrConsumer.statusData "disconnected" (some "c1") 2000)
        sampleApplication).1 = .ok () ∧
    (_onConnectionStatusChange "inplay"
        (SignalrConsumer.statusData "disconnected" (some "c1") 2000)
        sampleApplication).2.feedLifecycleTiming.disconnectedTime = 2000 ∧
    ¬ (_onConnectionStatusChange "inplay"
        (SignalrConsumer.statusData "disconnected" (some "c1") 2000)
        sampleApplication).2.feedLifecycleTiming.disconnectedTime = 0 := by
  refine ⟨rfl, rfl, ?_⟩
  decide

open ApplicationLogic in
/-- C9, as the code has it: `_onHeartbeat` rejects, with the tracker's invalid-argument
error, exactly when the heartbeat payload is not a positive integer, and completes
exactly when it is one; a rejected call leaves the tracker as it was, and a later
heartbeat that is a positive integer is handled. -/
theorem C9_onHeartbeat_rejects_malformed (now later : Int) (channel : String) (h : JsVal)
    (a : ApplicationLogic) (n : Int) (hn : 0 < n) :
    ((_onHeartbeat now channel h a).1
        = .error (FeedLifecycleTiming.invalidArgument "heartbeat" h)
      ↔ ¬ IsPositiveInteger h) ∧
    ((_onHeartbeat now channel h a).1 = .ok () ↔ IsPositiveInteger h) ∧
    (¬ IsPositiveInteger h →
      (_onHeartbeat now channel h a).2.feedLifecycleTiming = a.feedLifecycleTiming ∧
      (_onHeartbeat later channel (.int n) (_onHeartbeat now channel h a).2).1 = .ok ()) := by
  have key : ∀ (t : Int) (x : JsVal) (b : ApplicationLogic),
      (_onHeartbeat t channel x b).1 = (b.feedLifecycleTiming.trackHeartbeat t x).1 ∧
      (_onHeartbeat t channel x b).2.feedLifecycleTiming
        = (b.feedLifecycleTiming.trackHeartbeat t x).2 := by
    intro t x b
    simp [_onHeartbeat, withTracker, logAt]
  have hpos : IsPositiveInteger (.int n) := ⟨n, hn, rfl⟩
  have c4 := fun (t : Int) (x : JsVal) (tr : FeedLifecycleTiming) =>
    FeedLifecycleTiming.guarded_outcome "heartbeat" x tr
      (FeedLifecycleTiming.trackHeartbeat t x tr).2
  refine ⟨?_, ?_, ?_⟩
  · rw [(key now h a).1, FeedLifecycleTiming.trackHeartbeat_guarded]
    exact (c4 now h a.feedLifecycleTiming).1
  · rw [(key now h a).1, FeedLifecycleTiming.trackHeartbeat_guarded]
    exact (c4 now h a.feedLifecycleTiming).2.1
  · intro hnot
    constructor
    · rw [(key now h a).2, FeedLifecycleTiming.trackHeartbeat_guarded]
      simp [(FeedLifecycleTiming.rejects_iff h).mpr hnot]
    · rw [(key later (.int n) _).1, FeedLifecycleTiming.trackHeartbeat_guarded]
      exact (c4 later (.int n) _).2.1.mpr hpos

open ApplicationLogic in
/-- Witness of C9: the heartbeat payload `"soon"`, a string, followed by the heartbeat
2500. -/
theorem C9_onHeartbeat_rejects_malformed_witness :
    (_onHeartbeat 2000 "inplay" (.str "soon") sampleApplication).2.feedLifecycleTiming
      = sampleTiming ∧
    (_onHeartbeat 2600 "inplay" (.int 2500)
      (_onHeartbeat 2000 "inplay" (.str "soon") sampleApplication).2).1 = .ok () :=
  (C9_onHeartbeat_rejects_malformed 2000 2600 "inplay" (.str "soon") sampleApplication 2500
    (by decide)).2.2 (by rintro ⟨k, _, hk⟩; exact JsVal.noConfusion hk)

open ApplicationLogic in
/-- C9 as stated fails: the heartbeat payload 0 makes `_onHeartbeat` reject. -/
theorem C9_onHeartbeat_zero_rejects_counterexample :
    (_onHeartbeat 2000 "inplay" (.int 0) sampleApplication).1
      = .error (FeedLifecycleTiming.invalidArgument "heartbeat" (.int 0)) ∧
    ¬ (_onHeartbeat 2000 "inplay" (.int 0) sampleApplication).1 = .ok () := by
  refine ⟨rfl, ?_⟩
  intro hc
  exact Except.noConfusion hc

/-! ## Properties of the consumer's stop and cleanup -/

namespace SignalrConsumer

/-- One run of the cleanup: the handlers are unregistered, one `disconnected` event is
emitted with the connection id held at that moment, the connection id is cleared and
the status is `stopped`. -/
theorem postStopActions_eq (now : Int) (s : SignalrConsumer) :
    _postStopActions now s =
      { s with onUpdateRegistered := false, onHeartbeatRegistered := false,
               emitted := s.emitted ++ [disconnectedEvent s.channel s.connectionId now],
               connectionId := none, status := .stopped } := by
  rfl

/-- The count of `disconnected` events grows by one with each cleanup event. -/
theorem disconnectedCount_append_disconnected (events : List Event) (channel : String)
    (connectionId : Option String) (now : Int) :
    disconnectedCount (events ++ [disconnectedEvent channel connectionId now])
      = disconnectedCount events + 1 := by
  simp [disconnectedCount, disconnectedEvent, statusData, JsVal.getPropD, JsVal.getProp,
    JsVal.strictEqStr, List.filter_append]

end SignalrConsumer

open SignalrConsumer in
/-- C1, as the code has it: in a run that starts with the consumer started and in which
both `stop()` and an error-carrying close notification occur, the final status is
`stopped` and every run of the cleanup emits one `disconnected` event. When the
notification comes before `stop()`, one event is emitted and `stop()` fails because the
consumer is no longer started; when it comes while `stop()` awaits the transport close,
or after `stop()` has completed, two events are emitted, the first with the connection
id and the second with `null`. -/
theorem C1_cleanup_emits_once_per_run (s : SignalrConsumer) (t1 t2 : Int)
    (closeError : Option JsError) (err : JsError) (hs : s.status = .started) :
    -- the notification arrives before stop()
    ((stop t2 closeError (_onSignalrConnectionClose t1 (some err) s)).2.status = .stopped ∧
     (stop t2 closeError (_onSignalrConnectionClose t1 (some err) s)).2.emitted
       = s.emitted ++ [disconnectedEvent s.channel s.connectionId t1] ∧
     disconnectedCount (stop t2 closeError (_onSignalrConnectionClose t1 (some err) s)).2.emitted
       = disconnectedCount s.emitted + 1 ∧
     (stop t2 closeError (_onSignalrConnectionClose t1 (some err) s)).1
       = .error (.extendableError "SignalrConsumer is not started and can not be stopped so"
          .undefined)) ∧
    -- the notification arrives while stop() awaits the transport close
    ((stopBegin s).1 = .ok () ∧
     (stopResume t2 closeError
        (_onSignalrConnectionClose t1 (some err) (stopBegin s).2)).2.status = .stopped ∧
     (stopResume t2 closeError
        (_onSignalrConnectionClose t1 (some err) (stopBegin s).2)).2.emitted
       = s.emitted ++ [disconnectedEvent s.channel s.connectionId t1,
                       disconnectedEvent s.channel none t2] ∧
     disconnectedCount (stopResume t2 closeError
        (_onSignalrConnectionClose t1 (some err) (stopBegin s).2)).2.emitted
       = disconnectedCount s.emitted + 2) ∧
    -- the notification arrives after stop() has completed
    ((_onSignalrConnectionClose t2 (some err) (stop t1 closeError s).2).status = .stopped ∧
     (_onSignalrConnectionClose t2 (some err) (stop t1 closeError s).2).emitted
       = s.emitted ++ [disconnectedEvent s.channel s.connectionId t1,
                       disconnectedEvent s.channel none t2] ∧
     disconnectedCount (_onSignalrConnectionClose t2 (some err) (stop t1 closeError s).2).emitted
       = disconnectedCount s.emitted + 2) ∧
    -- the cleanup run twice
    (_postStopActions t2 (_postStopActions t1 s)).emitted
       = s.emitted ++ [disconnectedEvent s.channel s.connectionId t1,
                       disconnectedEvent s.channel none t2] := by
  have happ : ∀ (l : List Event) (a b : Event), l ++ [a, b] = (l ++ [a]) ++ [b] := by
    intro l a b
    simp
  have hcount2 : disconnectedCount (s.emitted ++ [disconnectedEvent s.channel s.connectionId t1,
      disconnectedEvent s.channel none t2]) = disconnectedCount s.emitted + 2 := by
    rw [happ, disconnectedCount_append_disconnected, disconnectedCount_append_disconnected]
  have hbefore : (stop t2 closeError (_onSignalrConnectionClose t1 (some err) s)).2.emitted
      = s.emitted ++ [disconnectedEvent s.channel s.connectionId t1] := by
    simp [stop, stopBegin, isStarted, _onSignalrConnectionClose, postStopActions_eq, logAt]
  have hduring : (stopResume t2 closeError
      (_onSignalrConnectionClose t1 (some err) (stopBegin s).2)).2.emitted
      = s.emitted ++ [disconnectedEvent s.channel s.connectionId t1,
                      disconnectedEvent s.channel none t2] := by
    cases closeError <;>
      simp [stopResume, stopBegin, isStarted, hs, _onSignalrConnectionClose,
        postStopActions_eq, logAt]
  have hafter : (_onSignalrConnectionClose t2 (some err) (stop t1 closeError s).2).emitted
      = s.emitted ++ [disconnectedEvent s.channel s.connectionId t1,
                      disconnectedEvent s.channel none t2] := by
    cases closeError <;>
      simp [stop, stopResume, stopBegin, isStarted, hs, _onSignalrConnectionClose,
        postStopActions_eq, logAt]
  refine ⟨⟨?_, hbefore, ?_, ?_⟩, ⟨?_, ?_, hduring, ?_⟩, ⟨?_, hafter, ?_⟩, ?_⟩
  · simp [stop, stopBegin, isStarted, _onSignalrConnectionClose, postStopActions_eq, logAt]
  · rw [hbefore, disconnectedCount_append_disconnected]
  · simp [stop, stopBegin, isStarted, _onSignalrConnectionClose, postStopActions_eq, logAt]
  · simp [stopBegin, isStarted, hs]
  · cases closeError <;>
      simp [stopResume, postStopActions_eq]
  · rw [hduring, hcount2]
  · simp [_onSignalrConnectionClose, postStopActions_eq]
  · rw [hafter, hcount2]
  · simp [postStopActions_eq]

open SignalrConsumer in
/-- Witness of C1: the consumer started with connection `c1`, stopped at time 2000
while the transport reports the loss of the connection at time 2001. -/
theorem C1_cleanup_emits_once_per_run_witness :
    sampleStarted.status = .started ∧
    (_onSignalrConnectionClose 2001 (some (.transportError "connection lost"))
        (stop 2000 none sampleStarted).2).status = .stopped ∧
    (_onSignalrConnectionClose 2001 (some (.transportError "connection lost"))
        (stop 2000 none sampleStarted).2).emitted
      = sampleStarted.emitted ++ [disconnectedEvent "inplay" (some "c1") 2000,
                                  disconnectedEvent "inplay" none 2001] :=
  ⟨rfl,
   (C1_cleanup_emits_once_per_run sampleStarted 2000 2001 none
      (.transportError "connection lost") rfl).2.2.1.1,
   (C1_cleanup_emits_once_per_run sampleStarted 2000 2001 none
      (.transportError "connection lost") rfl).2.2.1.2.1⟩

open SignalrConsumer in
/-- C1 as stated fails: the consumer started with connection `c1` has emitted no
`disconnected` event; after a successful `stop()` at time 2000 and an error-carrying
close notification at time 2001 it has emitted two, and so it has after two runs of the
cleanup alone. -/
theorem C1_stop_then_close_emits_twice_counterexample :
    sampleStarted.status = .started ∧
    disconnectedCount sampleStarted.emitted = 0 ∧
    (stop 2000 none sampleStarted).1 = .ok () ∧
    disconnectedCount
      (_onSignalrConnectionClose 2001 (some (.transportError "connection lost"))
        (stop 2000 none sampleStarted).2).emitted = 2 ∧
    disconnectedCount
      (_onSignalrConnectionClose 2001 (some (.transportError "connection lost"))
        (stop 2000 none sampleStarted).2).emitted ≠ 1 ∧
    disconnectedCount (_postStopActions 2001 (_postStopActions 2000 sampleStarted)).emitted
      = 2 := by
  refine ⟨rfl, rfl, rfl, rfl, ?_, rfl⟩
  decide

open SignalrConsumer in
/-- C10: for a started consumer, `stop()` runs the cleanup whether the transport close
succeeds or fails: afterwards both handlers are unregistered, exactly one event has been
added, the `disconnected` event carrying the connection id held before the call and the
time `now`, the connection id is cleared and the status is `stopped`; `stop()` fails
exactly when the close failed, with the close error itself, and the state it fails in
is the state after the cleanup. -/
theorem C10_stop_cleans_up_and_rethrows (s : SignalrConsumer) (now : Int)
    (closeError : Option JsError) (hs : s.status = .started) :
    (stop now closeError s).2.onUpdateRegistered = false ∧
    (stop now closeError s).2.onHeartbeatRegistered = false ∧
    (stop now closeError s).2.emitted
      = s.emitted ++ [{ name := "connectionStatus", channel := s.channel,
                        payload := statusData "disconnected" s.connectionId now }] ∧
    (stop now closeError s).2.connectionId = none ∧
    (stop now closeError s).2.status = .stopped ∧
    ((stop now closeError s).1 = .ok () ↔ closeError = none) ∧
    (∀ e, closeError = some e ↔ (stop now closeError s).1 = .error e) ∧
    (stop now closeError s).2 = _postStopActions now { s with status := .stopping } := by
  cases closeError <;>
    simp [stop, stopBegin, stopResume, isStarted, hs, postStopActions_eq, disconnectedEvent]

open SignalrConsumer in
/-- Witness of C10: the consumer started with connection `c1`, stopped at time 2000
while the transport close fails. -/
theorem C10_stop_cleans_up_and_rethrows_witness :
    sampleStarted.status = .started ∧
    (stop 2000 (some (.transportError "close failed")) sampleStarted).2.status = .stopped ∧
    (stop 2000 (some (.transportError "close failed")) sampleStarted).2.connectionId = none ∧
    (stop 2000 (some (.transportError "close failed")) sampleStarted).1
      = .error (.transportError "close failed") :=
  ⟨rfl,
   (C10_stop_cleans_up_and_rethrows sampleStarted 2000
      (some (.transportError "close failed")) rfl).2.2.2.2.1,
   (C10_stop_cleans_up_and_rethrows sampleStarted 2000
      (some (.transportError "close failed")) rfl).2.2.2.1,
   ((C10_stop_cleans_up_and_rethrows sampleStarted 2000
      (some (.transportError "close failed")) rfl).2.2.2.2.2.2.1
      (.transportError "close failed")).mp rfl⟩

/-! ## Properties of the consumer's start and of calls in the wrong state -/

open SignalrConsumer in
/-- C11: `start()` called in a state other than `stopped` and `stop()` called in a state
other than `started` throw before anything else happens: the call ends at its first
statement, whatever the transport would have answered, and the consumer (status,
connection id, registered handlers, emitted events, log) is exactly what it was. In
particular a `start()` on a started consumer fails and leaves it started with its
connection id. -/
theorem C11_wrong_state_call_fails_unchanged (s : SignalrConsumer) (now : Int)
    (connectResult : Except JsError (Option String)) (closeError : Option JsError) :
    (s.status ≠ .stopped →
      startBegin s
        = (.error (.extendableError "SignalrConsumer is not stopped and can not be started so"
            .undefined), s) ∧
      start now connectResult s
        = (.error (.extendableError "SignalrConsumer is not stopped and can not be started so"
            .undefined), s)) ∧
    (s.status ≠ .started →
      stopBegin s
        = (.error (.extendableError "SignalrConsumer is not started and can not be stopped so"
            .undefined), s) ∧
      stop now closeError s
        = (.error (.extendableError "SignalrConsumer is not started and can not be stopped so"
            .undefined), s)) ∧
    (s.status = .started →
      (∃ e, (start now connectResult s).1 = .error e) ∧
      (start now connectResult s).2.status = .started ∧
      (start now connectResult s).2.connectionId = s.connectionId) := by
  refine ⟨?_, ?_, ?_⟩
  · intro h
    have hb : s.isStopped = false := by
      cases hst : s.status <;> simp_all [isStopped]
    simp [start, startBegin, hb]
  · intro h
    have hb : s.isStarted = false := by
      cases hst : s.status <;> simp_all [isStarted]
    simp [stop, stopBegin, hb]
  · intro h
    simp [start, startBegin, isStopped, h]

open SignalrConsumer in
/-- Witness of C11: `start()` on the consumer started with connection `c1`, and `stop()`
on a newly constructed consumer. -/
theorem C11_wrong_state_call_fails_unchanged_witness :
    (start 3000 (.ok (some "c2")) sampleStarted).2.status = .started ∧
    (start 3000 (.ok (some "c2")) sampleStarted).2.connectionId = some "c1" ∧
    (stop 3000 none (SignalrConsumer.new "inplay")).2.status = .stopped :=
  ⟨((C11_wrong_state_call_fails_unchanged sampleStarted 3000 (.ok (some "c2")) none).2.2
      rfl).2.1,
   ((C11_wrong_state_call_fails_unchanged sampleStarted 3000 (.ok (some "c2")) none).2.2
      rfl).2.2,
   by
    rw [((C11_wrong_state_call_fails_unchanged (SignalrConsumer.new "inplay") 3000
      (.ok none) none).2.1 (by decide)).2]
    rfl⟩

/-! ## The connection id along a run of the consumer -/

namespace ConsumerRun

/-- A newly constructed consumer satisfies the invariant. -/
theorem inv_new (channel : String) : Inv (ConsumerRun.new channel) := by
  simp [Inv, ConsumerRun.new, SignalrConsumer.new]

/-- Every step that keeps the calls of `start` apart preserves the invariant. -/
theorem inv_step (r r1 : ConsumerRun) (st : ConsumerStep) (hinv : Inv r)
    (ho : r.orderly st = true) (hs : r.step st = some r1) : Inv r1 := by
  obtain ⟨hJ, hle, hp⟩ := hinv
  cases st with
  | callStart =>
    simp only [orderly, beq_iff_eq] at ho
    cases hst : r.consumer.status <;>
      simp [step, SignalrConsumer.startBegin, SignalrConsumer.isStopped, hst] at hs <;>
      subst hs <;> simp_all [Inv]
  | startSettles now connectResult =>
    have hcid : 0 < r.pendingStarts → r.consumer.connectionId = none := hp
    cases connectResult with
    | error e =>
      simp [step, SignalrConsumer.startResume, SignalrConsumer.logAt] at hs
      obtain ⟨hpos, rfl⟩ := hs
      have h0 : 0 < r.pendingStarts := Nat.pos_of_ne_zero hpos
      simp only [Inv]
      exact ⟨fun hne => absurd (hcid h0) hne, by omega, fun _ => hcid h0⟩
    | ok c =>
      simp [step, SignalrConsumer.startResume, SignalrConsumer.logAt,
        SignalrConsumer.emit] at hs
      obtain ⟨hpos, rfl⟩ := hs
      simp only [Inv]
      exact ⟨fun _ => Or.inl trivial, by omega, fun h => by omega⟩
  | callStop =>
    cases hst : r.consumer.status <;>
      simp [step, SignalrConsumer.stopBegin, SignalrConsumer.isStarted, hst] at hs <;>
      subst hs <;> simp_all [Inv]
  | stopSettles now closeError =>
    cases closeError <;>
      simp [step, SignalrConsumer.stopResume, SignalrConsumer._postStopActions,
        SignalrConsumer.emit] at hs <;>
      obtain ⟨_, rfl⟩ := hs <;>
      simp [Inv, hle]
  | connectionClose now error =>
    cases error <;>
      simp [step, SignalrConsumer._onSignalrConnectionClose,
        SignalrConsumer._postStopActions, SignalrConsumer.emit, SignalrConsumer.logAt] at hs <;>
      subst hs <;> simp_all [Inv]
  | reconnecting =>
    simp [step, SignalrConsumer._onSignalrReconnecting, SignalrConsumer.logAt] at hs
    subst hs
    simp_all [Inv]
  | reconnected =>
    simp [step, SignalrConsumer._onSignalrReconnected, SignalrConsumer.logAt] at hs
    subst hs
    simp_all [Inv]
  | update data =>
    simp only [step] at hs
    split at hs
    · cases hl : data.getProp "length" <;>
        simp [SignalrConsumer._onUpdate, hl, SignalrConsumer.logAt, SignalrConsumer.emit] at hs <;>
        subst hs <;> simp_all [Inv]
    · exact absurd hs (by simp)
  | heartbeat data =>
    simp only [step] at hs
    split at hs
    · simp [SignalrConsumer._onHeartbeat, SignalrConsumer.logAt, SignalrConsumer.emit] at hs
      subst hs
      simp_all [Inv]
    · exact absurd hs (by simp)

/-- The invariant holds after every run that keeps the calls of `start` apart. -/
theorem inv_runOrderly (steps : List ConsumerStep) (r r1 : ConsumerRun) (hinv : Inv r)
    (h : r.runOrderly steps = some r1) : Inv r1 := by
  induction steps generalizing r with
  | nil =>
    simp only [runOrderly, Option.some.injEq] at h
    exact h ▸ hinv
  | cons st rest ih =>
    simp only [runOrderly] at h
    split at h
    · rename_i ho
      cases hstep : r.step st with
      | none => simp [hstep] at h
      | some r2 =>
        simp only [hstep] at h
        exact ih r2 (inv_step r r2 st hinv ho hstep) h
    · exact absurd h (by simp)

/-- Two overlapping calls of `start` can leave a stopped consumer holding a connection
id: the first call is suspended, an error-carrying close notification returns the
status to `stopped`, a second call connects, and the first then fails. -/
theorem overlapping_starts_keep_connectionId :
    (((ConsumerRun.new "inplay").run
        [.callStart, .connectionClose 900 (some (.transportError "connection lost")),
         .callStart, .startSettles 1000 (.ok (some "c1")),
         .startSettles 1001 (.error (.transportError "timeout"))]).map
      (fun r => (r.consumer.status, r.consumer.connectionId)))
      = some (.stopped, some "c1") := by
  rfl

end ConsumerRun

/-- C13, as the code has it: in every state reached from construction by steps of
`start()`, `stop()` and the transport (the suspension points of `start()` and `stop()`
included) in which `start()` is never called while an earlier `start()` is suspended,
the connection id is `null` unless the status is `started` or `stopping`: while `stop()`
awaits the transport close the status is `stopping` and the connection id is still
held; the cleanup clears it. -/
theorem C13_connectionId_null_unless_started_or_stopping (channel : String)
    (steps : List ConsumerStep) (r : ConsumerRun)
    (h : (ConsumerRun.new channel).runOrderly steps = some r) :
    (r.consumer.connectionId ≠ none →
      r.consumer.status = .started ∨ r.consumer.status = .stopping) ∧
    (r.consumer.status = .stopped ∨ r.consumer.status = .starting →
      r.consumer.connectionId = none) := by
  have hinv := ConsumerRun.inv_runOrderly steps _ r (ConsumerRun.inv_new channel) h
  refine ⟨hinv.1, ?_⟩
  intro hst
  by_contra hne
  rcases hinv.1 hne with h1 | h1 <;> rcases hst with h2 | h2 <;> simp [h1] at h2

/-- Witness of C13: a consumer whose `start()` has connected with id `c1`, whose `stop()`
has then completed, and which is then started again and suspended in `start()`. -/
theorem C13_connectionId_null_unless_started_or_stopping_witness :
    ∃ r, (ConsumerRun.new "inplay").runOrderly
        [.callStart, .startSettles 1000 (.ok (some "c1")), .heartbeat (.int 1500),
         .callStop, .stopSettles 2000 none, .callStart] = some r ∧
      r.consumer.status = .starting ∧ r.consumer.connectionId = none :=
  ⟨_, rfl, rfl,
    (C13_connectionId_null_unless_started_or_stopping "inplay"
      [.callStart, .startSettles 1000 (.ok (some "c1")), .heartbeat (.int 1500),
       .callStop, .stopSettles 2000 none, .callStart] _ rfl).2 (Or.inr rfl)⟩

/-- C13 as stated fails: a consumer whose `start()` has connected with id `c1` and whose
`stop()` is suspended awaiting the transport close has status `stopping`, not `started`,
and still holds the connection id `c1`. -/
theorem C13_stopping_holds_connectionId_counterexample :
    (((ConsumerRun.new "inplay").runOrderly
        [.callStart, .startSettles 1000 (.ok (some "c1")), .callStop]).map
      (fun r => (r.consumer.status, r.consumer.connectionId, r.pendingStops)))
      = some (.stopping, some "c1", 1) := by
  rfl

/-! ## The orchestrator's handling of a batch -/

/-- A batch with a first element is a non-empty array. -/
theorem isNonEmptyArray_cons (x : JsVal) (rest : List JsVal) :
    UpdateHubMessageValidator.isNonEmptyArray (.arr (x :: rest)) = true := by
  simp [UpdateHubMessageValidator.isNonEmptyArray, UpdateHubMessageValidator.isArray,
    JsVal.isArrayValue, JsVal.getPropD, JsVal.getProp, JsVal.intValue]

/-- The empty batch is not a non-empty array. -/
theorem isNonEmptyArray_nil :
    UpdateHubMessageValidator.isNonEmptyArray (.arr []) = false := by
  simp [UpdateHubMessageValidator.isNonEmptyArray, JsVal.getPropD, JsVal.getProp,
    JsVal.intValue]

/-- A message accepted as non-snapshot data is not accepted as snapshot data. -/
theorem not_snapshot_of_nonSnapshot (x : JsVal)
    (h : UpdateHubMessageValidator.isValidNonSnapshotData x = true) :
    UpdateHubMessageValidator.isValidSnapshotData x = false := by
  simp only [UpdateHubMessageValidator.isValidNonSnapshotData, Bool.and_eq_true,
    Bool.not_eq_true'] at h
  simp [UpdateHubMessageValidator.isValidSnapshotData, h.2]

open ApplicationLogic UpdateHubMessageValidator in
/-- C14: for a batch that is an array the orchestrator's tracker call is decided by the
first element alone. The empty batch gives `trackLastSnapshotData(now)`; a first
element accepted by `isValidSnapshotData` gives `trackFirstSnapshotData(now)`; one
accepted by `isValidNonSnapshotData` gives `trackFirstNonSnapshotData(now)`; one
accepted by neither gives no tracker call: the handler logs an error, returns and the
tracker is unchanged. The elements after the first do not matter, and two consecutive
empty batches at positive times are both handled without error, the second one
overwriting `lastSnapshotTime`. -/
theorem C14_onUpdate_dispatch (a : ApplicationLogic) (now : Int) (channel : String)
    (x : JsVal) (rest : List JsVal) :
    (_onUpdate now channel (.arr []) a
      = withTracker
          ((a.logAt .info "Received data from onUpdate hub").feedLifecycleTiming.trackLastSnapshotData
            (.int now))
          (a.logAt .info "Received data from onUpdate hub")) ∧
    (isValidSnapshotData x = true →
      _onUpdate now channel (.arr (x :: rest)) a
        = withTracker
            ((a.logAt .info "Received data from onUpdate hub").feedLifecycleTiming.trackFirstSnapshotData
              (.int now))
            (a.logAt .info "Received data from onUpdate hub")) ∧
    (isValidNonSnapshotData x = true →
      _onUpdate now channel (.arr (x :: rest)) a
        = withTracker
            ((a.logAt .info "Received data from onUpdate hub").feedLifecycleTiming.trackFirstNonSnapshotData
              (.int now))
            (a.logAt .info "Received data from onUpdate hub")) ∧
    (isValidSnapshotData x = false → isValidNonSnapshotData x = false →
      _onUpdate now channel (.arr (x :: rest)) a
        = (.ok (), (a.logAt .info "Received data from onUpdate hub").logAt .error
            "Invalid data format of the first element of the array received from onUpdate hub") ∧
      (_onUpdate now channel (.arr (x :: rest)) a).2.feedLifecycleTiming
        = a.feedLifecycleTiming) ∧
    (_onUpdate now channel (.arr (x :: rest)) a = _onUpdate now channel (.arr [x]) a) ∧
    (∀ later : Int, 0 < now → 0 < later →
      (_onUpdate now channel (.arr []) a).1 = .ok () ∧
      (_onUpdate later channel (.arr []) (_onUpdate now channel (.arr []) a).2).1 = .ok () ∧
      (_onUpdate later channel (.arr []) (_onUpdate now channel (.arr []) a).2).2.feedLifecycleTiming.lastSnapshotTime
        = later) := by
  have hlen : ∀ items : List JsVal,
      (JsVal.arr items).getProp "length" = .ok (.int items.length) := by
    intro items
    simp [JsVal.getProp]
  have hempty : ∀ (t : Int) (b : ApplicationLogic), _onUpdate t channel (.arr []) b
      = withTracker
          ((b.logAt .info "Received data from onUpdate hub").feedLifecycleTiming.trackLastSnapshotData
            (.int t))
          (b.logAt .info "Received data from onUpdate hub") := by
    intro t b
    simp only [_onUpdate, hlen, isNonEmptyArray_nil]
    simp
  refine ⟨hempty now a, ?_, ?_, ?_, ?_, ?_⟩
  · intro hsnap
    simp only [_onUpdate, hlen, isNonEmptyArray_cons, JsVal.first, hsnap]
    simp
  · intro hnon
    simp only [_onUpdate, hlen, isNonEmptyArray_cons, JsVal.first, hnon,
      not_snapshot_of_nonSnapshot x hnon]
    simp
  · intro hsnap hnon
    simp only [_onUpdate, hlen, isNonEmptyArray_cons, JsVal.first, hsnap, hnon]
    simp [logAt]
  · simp only [_onUpdate, hlen, isNonEmptyArray_cons, JsVal.first]
  · intro later hnow hlater
    have h1 := FeedLifecycleTiming.rejects_int_of_pos now hnow
    have h2 := FeedLifecycleTiming.rejects_int_of_pos later hlater
    rw [hempty later, hempty now]
    simp [withTracker, FeedLifecycleTiming.trackLastSnapshotData, h1, h2, logAt,
      FeedLifecycleTiming.logAt, JsVal.intValue]
    split_ifs <;> simp

open ApplicationLogic in
/-- Witness of C14: a batch whose first element is a snapshot message, one whose first
element is an incremental message, one whose first element is a string, each followed
by a second element, and two empty batches at times 2000 and 2100. -/
theorem C14_onUpdate_dispatch_witness :
    (_onUpdate 2000 "inplay" (.arr [.obj [("msgType", .int 2)], .str "rest"]) sampleApplication
      = withTracker
          ((sampleApplication.logAt .info
              "Received data from onUpdate hub").feedLifecycleTiming.trackFirstSnapshotData
            (.int 2000))
          (sampleApplication.logAt .info "Received data from onUpdate hub")) ∧
    (_onUpdate 2000 "inplay" (.arr [.obj [("msgType", .int 1)], .str "rest"]) sampleApplication
      = withTracker
          ((sampleApplication.logAt .info
              "Received data from onUpdate hub").feedLifecycleTiming.trackFirstNonSnapshotData
            (.int 2000))
          (sampleApplication.logAt .info "Received data from onUpdate hub")) ∧
    (_onUpdate 2000 "inplay" (.arr [.str "msgType", .str "rest"])
        sampleApplication).2.feedLifecycleTiming = sampleTiming ∧
    (_onUpdate 2100 "inplay" (.arr [])
        (_onUpdate 2000 "inplay" (.arr [])
          sampleApplication).2).2.feedLifecycleTiming.lastSnapshotTime = 2100 :=
  ⟨(C14_onUpdate_dispatch sampleApplication 2000 "inplay" (.obj [("msgType", .int 2)])
      [.str "rest"]).2.1 rfl,
   (C14_onUpdate_dispatch sampleApplication 2000 "inplay" (.obj [("msgType", .int 1)])
      [.str "rest"]).2.2.1 rfl,
   ((C14_onUpdate_dispatch sampleApplication 2000 "inplay" (.str "msgType")
      [.str "rest"]).2.2.2.1 rfl rfl).2,
   ((C14_onUpdate_dispatch sampleApplication 2000 "inplay" (.str "msgType")
      [.str "rest"]).2.2.2.2.2 2100 (by decide) (by decide)).2.2⟩

/-! ## Further properties of the lifecycle timing tracker -/

namespace FeedLifecycleTiming

/-- An argument that passes the guard has a positive value. -/
theorem intValue_pos_of_not_rejects (x : JsVal) (h : rejects x = false) : 0 < x.intValue := by
  cases x <;> simp_all [rejects, JsVal.isInteger, JsVal.intValue]

/-- What `trackLastSnapshotData` does to the fields when its guard lets the argument
through: it returns, assigns `lastSnapshotTime` and touches no other field. -/
theorem trackLastSnapshotData_fields (x : JsVal) (t : FeedLifecycleTiming)
    (h : rejects x = false) :
    (trackLastSnapshotData x t).1 = .ok () ∧
    (trackLastSnapshotData x t).2.lastSnapshotTime = x.intValue ∧
    (trackLastSnapshotData x t).2.connectedTime = t.connectedTime ∧
    (trackLastSnapshotData x t).2.firstSnapshotTime = t.firstSnapshotTime ∧
    (trackLastSnapshotData x t).2.firstNonSnapshotTime = t.firstNonSnapshotTime ∧
    (trackLastSnapshotData x t).2.disconnectedTime = t.disconnectedTime ∧
    (trackLastSnapshotData x t).2.lastSeenHeartbeat = t.lastSeenHeartbeat := by
  simp only [trackLastSnapshotData, h, logAt, Bool.false_eq_true, if_false]
  split_ifs <;> simp

end FeedLifecycleTiming

open FeedLifecycleTiming in
/-- C15: for every tracker state and every positive integer `n`,
`trackLastSnapshotData(n)` returns, sets `lastSnapshotTime` to `n` whatever it held, and
leaves the other five fields as they were; a repeated call is accepted and overwrites
again; with no first snapshot tracked, `firstSnapshotTime` is still 0 afterwards. -/
theorem C15_trackLastSnapshotData_overwrites (t : FeedLifecycleTiming) (n m : Int)
    (hn : 0 < n) (hm : 0 < m) :
    (trackLastSnapshotData (.int n) t).1 = .ok () ∧
    (trackLastSnapshotData (.int n) t).2.lastSnapshotTime = n ∧
    (trackLastSnapshotData (.int n) t).2.connectedTime = t.connectedTime ∧
    (trackLastSnapshotData (.int n) t).2.firstSnapshotTime = t.firstSnapshotTime ∧
    (trackLastSnapshotData (.int n) t).2.firstNonSnapshotTime = t.firstNonSnapshotTime ∧
    (trackLastSnapshotData (.int n) t).2.disconnectedTime = t.disconnectedTime ∧
    (trackLastSnapshotData (.int n) t).2.lastSeenHeartbeat = t.lastSeenHeartbeat ∧
    (trackLastSnapshotData (.int m) (trackLastSnapshotData (.int n) t).2).1 = .ok () ∧
    (trackLastSnapshotData (.int m) (trackLastSnapshotData (.int n) t).2).2.lastSnapshotTime
      = m ∧
    (t.firstSnapshotTime = 0 → (trackLastSnapshotData (.int n) t).2.firstSnapshotTime = 0) := by
  have h1 := trackLastSnapshotData_fields (.int n) t (rejects_int_of_pos n hn)
  have h2 := trackLastSnapshotData_fields (.int m) (trackLastSnapshotData (.int n) t).2
    (rejects_int_of_pos m hm)
  refine ⟨h1.1, h1.2.1, h1.2.2.1, h1.2.2.2.1, h1.2.2.2.2.1, h1.2.2.2.2.2.1, h1.2.2.2.2.2.2,
    h2.1, h2.2.1, ?_⟩
  intro h0
  rw [h1.2.2.2.1, h0]

open FeedLifecycleTiming in
/-- Witness of C15: `trackLastSnapshotData(2000)` then `trackLastSnapshotData(2100)` on a
new tracker. -/
theorem C15_trackLastSnapshotData_overwrites_witness :
    (trackLastSnapshotData (.int 2100)
      (trackLastSnapshotData (.int 2000) FeedLifecycleTiming.new).2).2.lastSnapshotTime
      = 2100 ∧
    (trackLastSnapshotData (.int 2000) FeedLifecycleTiming.new).2.firstSnapshotTime = 0 :=
  ⟨(C15_trackLastSnapshotData_overwrites FeedLifecycleTiming.new 2000 2100 (by decide)
      (by decide)).2.2.2.2.2.2.2.2.1,
   (C15_trackLastSnapshotData_overwrites FeedLifecycleTiming.new 2000 2100 (by decide)
      (by decide)).2.2.2.2.2.2.2.2.2 rfl⟩

namespace FeedLifecycleTiming

/-- No call on the tracker writes a log entry at level `warn`. -/
theorem warnings_call (t : FeedLifecycleTiming) (c : TimingCall) :
    warnings (t.call c).log = warnings t.log := by
  cases c <;>
    simp only [call, reset, trackConnected, trackDisconnected, trackFirstSnapshotData,
      trackFirstNonSnapshotData, trackHeartbeat, trackLastSnapshotData, logAt] <;>
    split_ifs <;>
    simp [warnings, List.filter_append]

end FeedLifecycleTiming

open FeedLifecycleTiming in
/-- C16, as the code has it: a `track*` method called with a positive integer that
finds an expected earlier phase missing returns, and reports the anomaly as a log entry
at level `error`; it never writes an entry at level `warn`. This holds for a missing
`connectedTime` in `trackFirstSnapshotData`, `trackFirstNonSnapshotData`,
`trackLastSnapshotData` and the first `trackHeartbeat`, and for a missing
`firstSnapshotTime` in `trackLastSnapshotData`. -/
theorem C16_missing_phase_logged_at_error_level (t : FeedLifecycleTiming) (now n : Int)
    (hn : 0 < n) :
    (t.firstSnapshotTime = 0 → t.connectedTime = 0 →
      trackFirstSnapshotData (.int n) t
        = (.ok (), { t with
            firstSnapshotTime := n,
            log := t.log ++ [{ level := .error, message :=
              "First snapshot data was tracked, but connection was not. Make sure the connection is tracked." }] })) ∧
    (t.firstNonSnapshotTime = 0 → t.connectedTime = 0 →
      trackFirstNonSnapshotData (.int n) t
        = (.ok (), { t with
            firstNonSnapshotTime := n,
            log := t.log ++ [{ level := .error, message :=
              "First non-snapshot data was tracked, but connection was not. Make sure the connection is tracked." }] })) ∧
    (t.lastSeenHeartbeat = 0 → t.connectedTime = 0 →
      trackHeartbeat now (.int n) t
        = (.ok (), { t with
            lastSeenHeartbeat := n,
            log := t.log ++ [{ level := .error, message :=
              "First heartbeat was tracked, but connection was not. Make sure the connection is tracked." }] })) ∧
    (t.connectedTime = 0 →
      (trackLastSnapshotData (.int n) t).1 = .ok () ∧
      ∃ e, (trackLastSnapshotData (.int n) t).2.log
        = t.log ++ [e, { level := .error, message :=
            "Last snapshot data was tracked, but connection was not. Make sure the connection is tracked." }]) ∧
    (t.firstSnapshotTime = 0 →
      (trackLastSnapshotData (.int n) t).1 = .ok () ∧
      ∃ e, (trackLastSnapshotData (.int n) t).2.log
        = t.log ++ [{ level := .error, message :=
            "Last snapshot data was tracked, but first data was not. Make sure the first snapshot data is tracked." }, e]) ∧
    (∀ c : TimingCall, warnings (t.call c).log = warnings t.log) := by
  have hr := rejects_int_of_pos n hn
  refine ⟨?_, ?_, ?_, ?_, ?_, warnings_call t⟩
  · intro h1 h2
    simp [trackFirstSnapshotData, hr, h1, h2, logAt, JsVal.intValue]
  · intro h1 h2
    simp [trackFirstNonSnapshotData, hr, h1, h2, logAt, JsVal.intValue]
  · intro h1 h2
    simp [trackHeartbeat, hr, h1, h2, logAt, JsVal.intValue]
  · intro h2
    refine ⟨(trackLastSnapshotData_fields (.int n) t hr).1, ?_⟩
    simp only [trackLastSnapshotData, hr, logAt, Bool.false_eq_true, if_false]
    split_ifs <;> simp_all
  · intro h1
    refine ⟨(trackLastSnapshotData_fields (.int n) t hr).1, ?_⟩
    simp only [trackLastSnapshotData, hr, logAt, Bool.false_eq_true, if_false]
    split_ifs <;> simp_all

open FeedLifecycleTiming in
/-- Witness of C16: the four methods called with 2000 on a new tracker, on which no
phase has been tracked. -/
theorem C16_missing_phase_logged_at_error_level_witness :
    (trackFirstSnapshotData (.int 2000) FeedLifecycleTiming.new).2.log
      = [{ level := .error, message :=
          "First snapshot data was tracked, but connection was not. Make sure the connection is tracked." }] ∧
    (trackFirstNonSnapshotData (.int 2000) FeedLifecycleTiming.new).1 = .ok () ∧
    (trackHeartbeat 2100 (.int 2000) FeedLifecycleTiming.new).1 = .ok () ∧
    (trackLastSnapshotData (.int 2000) FeedLifecycleTiming.new).1 = .ok () :=
  ⟨congrArg (fun r => r.2.log)
      ((C16_missing_phase_logged_at_error_level FeedLifecycleTiming.new 2100 2000
        (by decide)).1 rfl rfl),
   congrArg (fun r => r.1)
      ((C16_missing_phase_logged_at_error_level FeedLifecycleTiming.new 2100 2000
        (by decide)).2.1 rfl rfl),
   congrArg (fun r => r.1)
      ((C16_missing_phase_logged_at_error_level FeedLifecycleTiming.new 2100 2000
        (by decide)).2.2.1 rfl rfl),
   ((C16_missing_phase_logged_at_error_level FeedLifecycleTiming.new 2100 2000
        (by decide)).2.2.2.1 rfl).1⟩

open FeedLifecycleTiming in
/-- C16 as stated fails: `trackLastSnapshotData(2000)` on a new tracker, where neither the
connection nor the first snapshot has been tracked, returns and writes two log entries,
both at level `error`, and none at level `warn`. -/
theorem C16_missing_phase_not_a_warning_counterexample :
    (trackLastSnapshotData (.int 2000) FeedLifecycleTiming.new).1 = .ok () ∧
    (trackLastSnapshotData (.int 2000) FeedLifecycleTiming.new).2.log
      = [{ level := .error, message :=
            "Last snapshot data was tracked, but first data was not. Make sure the first snapshot data is tracked." },
         { level := .error, message :=
            "Last snapshot data was tracked, but connection was not. Make sure the connection is tracked." }] ∧
    warnings (trackLastSnapshotData (.int 2000) FeedLifecycleTiming.new).2.log = [] := by
  refine ⟨rfl, rfl, rfl⟩

/-- A magnitude below `2 ^ 53` is a double as it stands. -/
theorem roundToDouble_of_small (m : Nat) (h : m < 2 ^ 53) : roundToDouble m = m := by
  unfold roundToDouble
  rw [if_pos h]

/-- A difference of magnitude below `2 ^ 53` is interpolated as its exact decimal. -/
theorem differenceText_of_small (a b : Int) (h : (a - b).natAbs < 2 ^ 53) :
    differenceText a b = toString (a - b) := by
  have hr := roundToDouble_of_small _ h
  have hs : (a - b).natAbs >>> 1024 = 0 := by
    rw [Nat.shiftRight_eq_div_pow]
    apply Nat.div_eq_of_lt
    calc (a - b).natAbs < 2 ^ 53 := h
      _ ≤ 2 ^ 1024 := Nat.pow_le_pow_right (by decide) (by decide)
  have hn : numberText (a - b).natAbs = toString (a - b).natAbs := by
    unfold numberText
    rw [if_pos h]
  simp only [differenceText, hr, hs, hn, ne_eq, not_true_eq_false, if_false]
  generalize a - b = d
  cases d with
  | ofNat n =>
    have : ¬ (Int.ofNat n < 0) := by simp
    simp only [this, if_false]
    rfl
  | negSucc n =>
    have : Int.negSucc n < 0 := Int.negSucc_lt_zero n
    simp only [this, if_true]
    rfl

open FeedLifecycleTiming in
/-- C17, as the code has it: on a tracker whose `lastSeenHeartbeat` is `p ≠ 0`,
`trackHeartbeat(h)` with a positive integer `h` returns, writes one `info` entry that
carries the interval `h - p` and the difference `now - h` as JavaScript computes and
prints them, sets `lastSeenHeartbeat` to `h` and leaves the other five fields as they
were. The interval logged is exactly `h - p` (zero or negative for a duplicate or an
out-of-order heartbeat) whenever its magnitude is below `2 ^ 53`, so whenever `p` and `h`
are positive and below `2 ^ 53`, as epoch-millisecond timestamps are; beyond that it is
`h - p` rounded to a double. `trackConnected(100)`, `trackHeartbeat(150)`,
`trackHeartbeat(400)` on a new tracker logs the interval 250. -/
theorem C17_trackHeartbeat_logs_interval (t : FeedLifecycleTiming) (now h : Int)
    (hh : 0 < h) (hp : t.lastSeenHeartbeat ≠ 0) :
    trackHeartbeat now (.int h) t
      = (.ok (), { t with
          lastSeenHeartbeat := h,
          log := t.log ++ [{ level := .info, message :=
            "Interval between prev heartbeat: " ++ differenceText h t.lastSeenHeartbeat ++ " ms"
              ++ ", local and server time diff: " ++ differenceText now h ++ " ms" }] }) ∧
    ((h - t.lastSeenHeartbeat).natAbs < 2 ^ 53 →
      differenceText h t.lastSeenHeartbeat = toString (h - t.lastSeenHeartbeat)) ∧
    (0 < t.lastSeenHeartbeat → t.lastSeenHeartbeat < 2 ^ 53 → h < 2 ^ 53 →
      differenceText h t.lastSeenHeartbeat = toString (h - t.lastSeenHeartbeat)) ∧
    (trackHeartbeat 500 (.int 400)
      (trackHeartbeat 200 (.int 150)
        (trackConnected (.int 100) FeedLifecycleTiming.new).2).2).1 = .ok () ∧
    (trackHeartbeat 500 (.int 400)
      (trackHeartbeat 200 (.int 150)
        (trackConnected (.int 100) FeedLifecycleTiming.new).2).2).2.log
      = [{ level := .info, message := "Time from the connection to the first heartbeat: 50 ms" },
         { level := .info, message :=
            "Interval between prev heartbeat: 250 ms, local and server time diff: 100 ms" }] := by
  have hr := rejects_int_of_pos h hh
  refine ⟨?_, differenceText_of_small h t.lastSeenHeartbeat, ?_, rfl, rfl⟩
  · simp [trackHeartbeat, hr, hp, logAt, JsVal.intValue]
  · intro h1 h2 h3
    apply differenceText_of_small
    omega

open FeedLifecycleTiming in
/-- Witness of C17: a duplicate heartbeat, 150 again, on a tracker whose last heartbeat
is 150: the interval logged is 0. -/
theorem C17_trackHeartbeat_logs_interval_witness :
    (trackHeartbeat 2000 (.int 150) sampleTiming).1 = .ok () ∧
    (trackHeartbeat 2000 (.int 150) sampleTiming).2.lastSeenHeartbeat = 150 ∧
    differenceText 150 sampleTiming.lastSeenHeartbeat
      = toString ((150 : Int) - sampleTiming.lastSeenHeartbeat) :=
  ⟨congrArg (fun r => r.1)
      (C17_trackHeartbeat_logs_interval sampleTiming 2000 150 (by decide) (by decide)).1,
   congrArg (fun r => r.2.lastSeenHeartbeat)
      (C17_trackHeartbeat_logs_interval sampleTiming 2000 150 (by decide) (by decide)).1,
   (C17_trackHeartbeat_logs_interval sampleTiming 2000 150 (by decide) (by decide)).2.2.1
      (by decide) (by decide) (by decide)⟩

open FeedLifecycleTiming in
/-- C17 as stated fails: on a tracker whose last heartbeat is 1, the heartbeat
9007199254740994 (an integer, `2 ^ 53 + 2`) is accepted, and the interval logged is
9007199254740992 although `h - p` is 9007199254740993, which no double holds. -/
theorem C17_interval_rounded_counterexample :
    (trackHeartbeat 1 (.int 1) FeedLifecycleTiming.new).2.lastSeenHeartbeat = 1 ∧
    (trackHeartbeat 9007199254740994 (.int 9007199254740994)
      (trackHeartbeat 1 (.int 1) FeedLifecycleTiming.new).2).1 = .ok () ∧
    (trackHeartbeat 9007199254740994 (.int 9007199254740994)
      (trackHeartbeat 1 (.int 1) FeedLifecycleTiming.new).2).2.log.getLast?
      = some { level := .info, message :=
          "Interval between prev heartbeat: 9007199254740992 ms, local and server time diff: 0 ms" } ∧
    (9007199254740994 : Int) - 1 = 9007199254740993 ∧
    toString ((9007199254740994 : Int) - 1) = "9007199254740993" := by
  refine ⟨rfl, rfl, rfl, rfl, rfl⟩

open FeedLifecycleTiming in
/-- C20: for every tracker state and every positive integer `n`, `trackConnected(n)`
returns and sets `connectedTime` to `n`, whatever it held, and changes nothing else:
the other five fields and the log are as they were. -/
theorem C20_trackConnected_overwrites (t : FeedLifecycleTiming) (n : Int) (hn : 0 < n) :
    trackConnected (.int n) t = (.ok (), { t with connectedTime := n }) ∧
    (trackConnected (.int n) t).2.connectedTime = n ∧
    (trackConnected (.int n) t).2.firstSnapshotTime = t.firstSnapshotTime ∧
    (trackConnected (.int n) t).2.firstNonSnapshotTime = t.firstNonSnapshotTime ∧
    (trackConnected (.int n) t).2.lastSnapshotTime = t.lastSnapshotTime ∧
    (trackConnected (.int n) t).2.disconnectedTime = t.disconnectedTime ∧
    (trackConnected (.int n) t).2.lastSeenHeartbeat = t.lastSeenHeartbeat := by
  have hr := rejects_int_of_pos n hn
  simp [trackConnected, hr, JsVal.intValue]

open FeedLifecycleTiming in
/-- Witness of C20: `trackConnected(3000)` on a tracker whose `connectedTime` is 100. -/
theorem C20_trackConnected_overwrites_witness :
    sampleTiming.connectedTime = 100 ∧
    (trackConnected (.int 3000) sampleTiming).2.connectedTime = 3000 ∧
    (trackConnected (.int 3000) sampleTiming).2.firstSnapshotTime = 110 :=
  ⟨rfl, (C20_trackConnected_overwrites sampleTiming 3000 (by decide)).2.1,
    (C20_trackConnected_overwrites sampleTiming 3000 (by decide)).2.2.1⟩

namespace FeedLifecycleTiming

/-- Every call on the tracker keeps each phase field 0 or positive. -/
theorem fieldsValid_call (t : FeedLifecycleTiming) (c : TimingCall) (h : t.FieldsValid) :
    (t.call c).FieldsValid := by
  obtain ⟨h1, h2, h3, h4, h5, h6⟩ := h
  cases c with
  | reset => simp [call, reset, FieldsValid]
  | trackConnected x =>
    cases hr : rejects x
    · have := intValue_pos_of_not_rejects x hr
      simp only [call, trackConnected, hr, FieldsValid]
      simp
      omega
    · simp [call, trackConnected, hr, FieldsValid, h1, h2, h3, h4, h5, h6]
  | trackDisconnected x =>
    cases hr : rejects x
    · have := intValue_pos_of_not_rejects x hr
      simp only [call, trackDisconnected, hr, FieldsValid, reset]
      simp
      omega
    · simp [call, trackDisconnected, hr, FieldsValid, h1, h2, h3, h4, h5, h6]
  | trackFirstSnapshotData x =>
    cases hr : rejects x
    · have := intValue_pos_of_not_rejects x hr
      simp only [call, trackFirstSnapshotData, hr, FieldsValid, logAt, Bool.false_eq_true,
        if_false]
      split_ifs <;> simp <;> omega
    · simp [call, trackFirstSnapshotData, hr, FieldsValid, h1, h2, h3, h4, h5, h6]
  | trackFirstNonSnapshotData x =>
    cases hr : rejects x
    · have := intValue_pos_of_not_rejects x hr
      simp only [call, trackFirstNonSnapshotData, hr, FieldsValid, logAt, Bool.false_eq_true,
        if_false]
      split_ifs <;> simp <;> omega
    · simp [call, trackFirstNonSnapshotData, hr, FieldsValid, h1, h2, h3, h4, h5, h6]
  | trackHeartbeat now x =>
    cases hr : rejects x
    · have := intValue_pos_of_not_rejects x hr
      simp only [call, trackHeartbeat, hr, FieldsValid, logAt, Bool.false_eq_true, if_false]
      split_ifs <;> simp <;> omega
    · simp [call, trackHeartbeat, hr, FieldsValid, h1, h2, h3, h4, h5, h6]
  | trackLastSnapshotData x =>
    cases hr : rejects x
    · have := intValue_pos_of_not_rejects x hr
      have hf := trackLastSnapshotData_fields x t hr
      simp only [call, FieldsValid]
      rw [hf.2.1, hf.2.2.1, hf.2.2.2.1, hf.2.2.2.2.1, hf.2.2.2.2.2.1, hf.2.2.2.2.2.2]
      omega
    · simp [call, trackLastSnapshotData, hr, FieldsValid, h1, h2, h3, h4, h5, h6]

/-- Every sequence of calls on the tracker keeps each phase field 0 or positive. -/
theorem fieldsValid_calls (cs : List TimingCall) (t : FeedLifecycleTiming)
    (h : t.FieldsValid) : (t.calls cs).FieldsValid := by
  induction cs generalizing t with
  | nil => exact h
  | cons c rest ih => exact ih (t.call c) (fieldsValid_call t c h)

end FeedLifecycleTiming

/-- C19: at construction and after every sequence of calls on the tracker (`reset` and
the six `track*` methods, with arbitrary arguments, the calls that throw included) each
of the six phase fields is 0 or a positive integer. -/
theorem C19_fields_zero_or_positive (cs : List TimingCall) :
    FeedLifecycleTiming.new.FieldsValid ∧ (FeedLifecycleTiming.new.calls cs).FieldsValid := by
  have h0 : FeedLifecycleTiming.new.FieldsValid := by
    simp [FeedLifecycleTiming.FieldsValid, FeedLifecycleTiming.new]
  exact ⟨h0, FeedLifecycleTiming.fieldsValid_calls cs _ h0⟩

/-! ## The consumer's forwarding of remote calls -/

open SignalrConsumer in
/-- The consumer forwards a heartbeat payload of any shape, and an update payload of
any shape other than `null` and `undefined`: the handler returns and exactly one event
is emitted, carrying the channel and the payload as received. -/
theorem consumer_forwards_payload (data : JsVal) (s : SignalrConsumer) :
    (_onHeartbeat data s).1 = .ok () ∧
    (_onHeartbeat data s).2.emitted
      = s.emitted ++ [{ name := "heartbeat", channel := s.channel, payload := data }] ∧
    (data ≠ .null → data ≠ .undefined →
      (_onUpdate data s).1 = .ok () ∧
      (_onUpdate data s).2.emitted
        = s.emitted ++ [{ name := "data", channel := s.channel, payload := data }]) := by
  refine ⟨rfl, rfl, ?_⟩
  intro h1 h2
  cases data <;> simp_all [_onUpdate, JsVal.getProp, emit, logAt]

open SignalrConsumer in
/-- C18 at the failing input: when the transport invokes `OnUpdate` with `null` or with
`undefined`, the consumer's `_onUpdate` throws at the read of `data.length`, before the
`emit`: no `data` event is emitted and the consumer is as it was. -/
theorem C18_onUpdate_null_or_undefined_throws (s : SignalrConsumer) :
    _onUpdate .null s
      = (.error (.typeError "Cannot read properties of null (reading length)"), s) ∧
    _onUpdate .undefined s
      = (.error (.typeError "Cannot read properties of undefined (reading length)"), s) ∧
    (_onUpdate .null s).2.emitted = s.emitted ∧
    (_onUpdate .undefined s).2.emitted = s.emitted ∧
    (_onHeartbeat .null s).1 = .ok () ∧
    (_onHeartbeat .null s).2.emitted
      = s.emitted ++ [{ name := "heartbeat", channel := s.channel, payload := .null }] := by
  refine ⟨rfl, rfl, rfl, rfl, rfl, rfl⟩

/-! ## Transport notifications that are only logged -/

open SignalrConsumer in
/-- C21: the `reconnecting` and `reconnected` notifications, and a close notification
that carries no error, change nothing but the log, in every consumer state: the status,
the connection id, the registration of the two handlers and the emitted events are as
they were (a close notification without error changes nothing at all, so a started
consumer still reports `started` with its connection id). -/
theorem C21_notifications_only_logged (s : SignalrConsumer) (now : Int) :
    (_onSignalrReconnecting s
      = { s with log := s.log ++
          [{ level := .warn, message := "SignalR client fired reconnecting event" }] }) ∧
    (_onSignalrReconnected s
      = { s with log := s.log ++
          [{ level := .warn, message := "SignalR client fired reconnected event" }] }) ∧
    (_onSignalrConnectionClose now none s = s) ∧
    ((_onSignalrReconnecting s).status = s.status ∧
     (_onSignalrReconnecting s).connectionId = s.connectionId ∧
     (_onSignalrReconnecting s).onUpdateRegistered = s.onUpdateRegistered ∧
     (_onSignalrReconnecting s).onHeartbeatRegistered = s.onHeartbeatRegistered ∧
     (_onSignalrReconnecting s).emitted = s.emitted) ∧
    ((_onSignalrReconnected s).status = s.status ∧
     (_onSignalrReconnected s).connectionId = s.connectionId ∧
     (_onSignalrReconnected s).onUpdateRegistered = s.onUpdateRegistered ∧
     (_onSignalrReconnected s).onHeartbeatRegistered = s.onHeartbeatRegistered ∧
     (_onSignalrReconnected s).emitted = s.emitted) ∧
    (_onSignalrConnectionClose 2000 none sampleStarted).status = .started ∧
    (_onSignalrConnectionClose 2000 none sampleStarted).connectionId = some "c1" := by
  refine ⟨rfl, rfl, rfl, ⟨rfl, rfl, rfl, rfl, rfl⟩, ⟨rfl, rfl, rfl, rfl, rfl⟩, rfl, rfl⟩

/-! ## Payloads of a `data` event that are not arrays -/

open ApplicationLogic in
/-- C22: a `data` event payload that is not an array and whose `length` can be read
(any value other than `null` and `undefined`: a string, a number, a keyed structure,
also one with a `length` field) is handled exactly as the empty batch is: the handler
calls `trackLastSnapshotData(now)`, with no classification and no rejection of the
payload. -/
theorem C22_non_array_handled_as_empty_batch (a : ApplicationLogic) (now : Int)
    (channel : String) (data : JsVal) (harr : data.isArrayValue = false)
    (hnull : data ≠ .null) (hundef : data ≠ .undefined) :
    _onUpdate now channel data a = _onUpdate now channel (.arr []) a ∧
    _onUpdate now channel data a
      = withTracker
          ((a.logAt .info "Received data from onUpdate hub").feedLifecycleTiming.trackLastSnapshotData
            (.int now))
          (a.logAt .info "Received data from onUpdate hub") := by
  have hne : UpdateHubMessageValidator.isNonEmptyArray data = false := by
    simp [UpdateHubMessageValidator.isNonEmptyArray, UpdateHubMessageValidator.isArray, harr]
  have hlen : ∃ v, data.getProp "length" = .ok v := by
    cases data <;> simp_all [JsVal.getProp]
  obtain ⟨v, hv⟩ := hlen
  have h1 : _onUpdate now channel data a
      = withTracker
          ((a.logAt .info "Received data from onUpdate hub").feedLifecycleTiming.trackLastSnapshotData
            (.int now))
          (a.logAt .info "Received data from onUpdate hub") := by
    simp only [_onUpdate, hv, hne]
    simp
  have h2 : _onUpdate now channel (.arr []) a
      = withTracker
          ((a.logAt .info "Received data from onUpdate hub").feedLifecycleTiming.trackLastSnapshotData
            (.int now))
          (a.logAt .info "Received data from onUpdate hub") := by
    have hl : (JsVal.arr []).getProp "length" = .ok (.int 0) := by
      simp [JsVal.getProp]
    simp only [_onUpdate, hl, isNonEmptyArray_nil]
    simp
  exact ⟨h1.trans h2.symm, h1⟩

open ApplicationLogic in
/-- Witness of C22: the payload `{length: 3, msgType: 2}`, a keyed structure, at time
2000. -/
theorem C22_non_array_handled_as_empty_batch_witness :
    _onUpdate 2000 "inplay" (.obj [("length", .int 3), ("msgType", .int 2)]) sampleApplication
      = _onUpdate 2000 "inplay" (.arr []) sampleApplication :=
  (C22_non_array_handled_as_empty_batch sampleApplication 2000 "inplay"
    (.obj [("length", .int 3), ("msgType", .int 2)]) rfl
    (fun h => JsVal.noConfusion h) (fun h => JsVal.noConfusion h)).1

/-! ## The handlers attached by the orchestrator -/

namespace ApplicationLogic

/-- The handler of `data` events changes neither the attached listeners nor the
consumer. -/
theorem onUpdate_keeps (now : Int) (channel : String) (data : JsVal) (a : ApplicationLogic) :
    (_onUpdate now channel data a).2.listeners = a.listeners ∧
    (_onUpdate now channel data a).2.consumer = a.consumer := by
  unfold _onUpdate
  cases data.getProp "length" with
  | error e => exact ⟨rfl, rfl⟩
  | ok v =>
    dsimp only
    split_ifs <;> exact ⟨rfl, rfl⟩

/-- The handler of `heartbeat` events changes neither the attached listeners nor the
consumer. -/
theorem onHeartbeat_keeps (now : Int) (channel : String) (data : JsVal)
    (a : ApplicationLogic) :
    (_onHeartbeat now channel data a).2.listeners = a.listeners ∧
    (_onHeartbeat now channel data a).2.consumer = a.consumer :=
  ⟨rfl, rfl⟩

/-- The handler of `connectionStatus` events changes neither the attached listeners nor
the consumer. -/
theorem onConnectionStatusChange_keeps (channel : String) (data : JsVal)
    (a : ApplicationLogic) :
    (_onConnectionStatusChange channel data a).2.listeners = a.listeners ∧
    (_onConnectionStatusChange channel data a).2.consumer = a.consumer := by
  unfold _onConnectionStatusChange
  split_ifs
  · split <;> exact ⟨rfl, rfl⟩
  · split <;> exact ⟨rfl, rfl⟩
  · exact ⟨rfl, rfl⟩
  · exact ⟨rfl, rfl⟩

/-- One listener run for an event changes neither the attached listeners nor the
consumer. -/
theorem runListener_keeps (now : Int) (e : Event) (l : Listener) (a : ApplicationLogic) :
    (runListener now e l a).listeners = a.listeners ∧
    (runListener now e l a).consumer = a.consumer := by
  cases l <;> simp only [runListener] <;> split_ifs
  · exact onUpdate_keeps now e.channel e.payload a
  · exact ⟨rfl, rfl⟩
  · exact onHeartbeat_keeps now e.channel e.payload a
  · exact ⟨rfl, rfl⟩
  · exact onConnectionStatusChange_keeps e.channel e.payload a
  · exact ⟨rfl, rfl⟩

/-- The listeners run for one event change neither the attached listeners nor the
consumer. -/
theorem runListeners_keeps (now : Int) (e : Event) (ls : List Listener)
    (a : ApplicationLogic) :
    (ls.foldl (fun acc l => runListener now e l acc) a).listeners = a.listeners ∧
    (ls.foldl (fun acc l => runListener now e l acc) a).consumer = a.consumer := by
  induction ls generalizing a with
  | nil => exact ⟨rfl, rfl⟩
  | cons l rest ih =>
    simp only [List.foldl_cons]
    have h1 := ih (runListener now e l a)
    have h2 := runListener_keeps now e l a
    exact ⟨h1.1.trans h2.1, h1.2.trans h2.2⟩

/-- The delivery of events changes neither the attached listeners nor the consumer. -/
theorem deliver_keeps (now : Int) (events : List Event) (a : ApplicationLogic) :
    (deliver now events a).listeners = a.listeners ∧
    (deliver now events a).consumer = a.consumer := by
  induction events generalizing a with
  | nil => exact ⟨rfl, rfl⟩
  | cons e rest ih =>
    simp only [deliver, List.foldl_cons]
    have h1 := ih (a.listeners.foldl (fun acc l => runListener now e l acc) a)
    have h2 := runListeners_keeps now e a.listeners a
    simp only [deliver] at h1
    exact ⟨h1.1.trans h2.1, h1.2.trans h2.2⟩

/-- A `start` whose clock probe succeeds attaches the three handlers, whatever the
consumer then does; the consumer is left as its own `start` leaves it. -/
theorem start_probe_ok (now : Int) (line : String)
    (connectResult : Except JsError (Option String)) (a : ApplicationLogic) :
    (a.start now (.ok line) connectResult).2.listeners
      = a.listeners ++
          [Listener.onUpdate, Listener.onHeartbeat, Listener.onConnectionStatusChange] ∧
    (a.start now (.ok line) connectResult).2.consumer
      = (a.consumer.start now connectResult).2 ∧
    (a.start now (.ok line) connectResult).1 = (a.consumer.start now connectResult).1 := by
  simp only [start]
  refine ⟨?_, ?_, rfl⟩
  · rw [(deliver_keeps _ _ _).1]
    rfl
  · rw [(deliver_keeps _ _ _).2]
    rfl

/-- A `start` whose clock probe fails attaches nothing and does not reach the consumer. -/
theorem start_probe_error (now : Int) (e : JsError)
    (connectResult : Except JsError (Option String)) (a : ApplicationLogic) :
    (a.start now (.error e) connectResult).2.listeners = a.listeners ∧
    (a.start now (.error e) connectResult).2.consumer = a.consumer ∧
    (a.start now (.error e) connectResult).1 = .error e :=
  ⟨rfl, rfl, rfl⟩

/-- A `stop` detaches one instance of each handler when the consumer's `stop` succeeds,
and nothing when it fails; the consumer is left as its own `stop` leaves it. -/
theorem stop_listeners (now : Int) (closeError : Option JsError) (a : ApplicationLogic) :
    (a.stop now closeError).1 = (a.consumer.stop now closeError).1 ∧
    (a.stop now closeError).2.consumer = (a.consumer.stop now closeError).2 ∧
    ((a.stop now closeError).1 = .ok () →
      (a.stop now closeError).2.listeners
        = ((a.listeners.erase .onUpdate).erase .onHeartbeat).erase
            .onConnectionStatusChange) ∧
    (∀ e, (a.stop now closeError).1 = .error e →
      (a.stop now closeError).2.listeners = a.listeners) := by
  have hc : (a.logAt .info "Stopping...").consumer = a.consumer := rfl
  have hl : (a.logAt .info "Stopping...").listeners = a.listeners := rfl
  simp only [stop, hc]
  cases hr : (a.consumer.stop now closeError).1 with
  | error e =>
    refine ⟨rfl, ?_, ?_, ?_⟩
    · rw [(deliver_keeps _ _ _).2]
    · intro h
      exact Except.noConfusion h
    · intro e2 _
      dsimp only
      rw [(deliver_keeps _ _ _).1]
      exact hl
  | ok u =>
    refine ⟨rfl, ?_, ?_, ?_⟩
    · dsimp only
      rw [(deliver_keeps _ _ _).2]
    · intro _
      dsimp only
      rw [(deliver_keeps _ _ _).1]
      rfl
    · intro e2 h
      exact Except.noConfusion h

/-- Along calls that succeed the handlers are attached exactly while the consumer is
started: a call that succeeds on an orchestrator whose consumer is stopped with nothing
attached, or started with each handler attached once, leaves it in one of these two
states again. -/
theorem paired_call (a : ApplicationLogic) (c : ApplicationCall)
    (hP : (a.consumer.status = .stopped ∧ a.listeners = []) ∨
      (a.consumer.status = .started ∧ a.listeners
        = [Listener.onUpdate, Listener.onHeartbeat, Listener.onConnectionStatusChange]))
    (hok : (a.call c).1 = .ok ()) :
    ((a.call c).2.consumer.status = .stopped ∧ (a.call c).2.listeners = []) ∨
      ((a.call c).2.consumer.status = .started ∧ (a.call c).2.listeners
        = [Listener.onUpdate, Listener.onHeartbeat, Listener.onConnectionStatusChange]) := by
  cases c with
  | start now ntpTime connectResult =>
    cases ntpTime with
    | error e =>
      simp only [call] at hok
      rw [(start_probe_error now e connectResult a).2.2] at hok
      exact Except.noConfusion hok
    | ok line =>
      obtain ⟨hl, hc, hr⟩ := start_probe_ok now line connectResult a
      simp only [call] at hok ⊢
      rw [hr] at hok
      rw [hl, hc]
      cases hst : a.consumer.status <;> cases connectResult <;>
        simp [SignalrConsumer.start, SignalrConsumer.startBegin, SignalrConsumer.startResume,
          SignalrConsumer.isStopped, SignalrConsumer.emit, SignalrConsumer.logAt, hst]
          at hok ⊢
      rcases hP with ⟨_, h0⟩ | ⟨h1, _⟩
      · exact h0
      · rw [hst] at h1
        exact Status.noConfusion h1
  | stop now closeError =>
    obtain ⟨hr, hc, hlok, _⟩ := stop_listeners now closeError a
    simp only [call] at hok ⊢
    rw [hlok hok, hc]
    rw [hr] at hok
    cases hst : a.consumer.status <;> cases closeError <;>
      simp [SignalrConsumer.stop, SignalrConsumer.stopBegin, SignalrConsumer.stopResume,
        SignalrConsumer.isStarted, SignalrConsumer._postStopActions, SignalrConsumer.emit,
        hst] at hok ⊢
    rcases hP with ⟨h1, _⟩ | ⟨_, h0⟩
    · rw [hst] at h1
      exact Status.noConfusion h1
    · rw [h0]
      decide

/-- After a sequence of calls that all succeed, made on a newly constructed
orchestrator, the handlers are attached exactly while the consumer is started, each
once. -/
theorem paired_calls (cs : List ApplicationCall) (a : ApplicationLogic)
    (hP : (a.consumer.status = .stopped ∧ a.listeners = []) ∨
      (a.consumer.status = .started ∧ a.listeners
        = [Listener.onUpdate, Listener.onHeartbeat, Listener.onConnectionStatusChange]))
    (hok : a.allSucceed cs = true) :
    (a.calls cs).listeners = [] ∨ (a.calls cs).listeners
      = [Listener.onUpdate, Listener.onHeartbeat, Listener.onConnectionStatusChange] := by
  induction cs generalizing a with
  | nil =>
    rcases hP with ⟨_, h⟩ | ⟨_, h⟩
    · exact Or.inl h
    · exact Or.inr h
  | cons c rest ih =>
    simp only [allSucceed] at hok
    cases hr : (a.call c).1 with
    | error e => simp [hr] at hok
    | ok u =>
      simp only [hr] at hok
      exact ih (a.call c).2 (paired_call a c hP hr) hok

end ApplicationLogic

namespace ApplicationLogic

/-- Once the consumer has handled something from the transport, the listeners attached
are as before and the consumer is in the state it reached. -/
theorem afterConsumer_keeps (now : Int) (s : SignalrConsumer) (a : ApplicationLogic) :
    (afterConsumer now s a).listeners = a.listeners ∧ (afterConsumer now s a).consumer = s := by
  unfold afterConsumer
  exact ⟨(deliver_keeps _ _ _).1, (deliver_keeps _ _ _).2⟩

/-- A step other than an error-carrying close notification, if it succeeds, keeps the
handlers attached exactly while the consumer is started. -/
theorem paired_step (a : ApplicationLogic) (st : ApplicationStep)
    (hP : (a.consumer.status = .stopped ∧ a.listeners = []) ∨
      (a.consumer.status = .started ∧ a.listeners
        = [Listener.onUpdate, Listener.onHeartbeat, Listener.onConnectionStatusChange]))
    (hq : st.isErrorClose = false) (hok : (a.step st).1 = .ok ()) :
    ((a.step st).2.consumer.status = .stopped ∧ (a.step st).2.listeners = []) ∨
      ((a.step st).2.consumer.status = .started ∧ (a.step st).2.listeners
        = [Listener.onUpdate, Listener.onHeartbeat, Listener.onConnectionStatusChange]) := by
  cases st with
  | call c => exact paired_call a c hP hok
  | connectionClose now error =>
    cases error with
    | some e => exact absurd hq (by simp [ApplicationStep.isErrorClose])
    | none =>
      simp only [step, SignalrConsumer._onSignalrConnectionClose]
      rw [(afterConsumer_keeps now a.consumer a).1, (afterConsumer_keeps now a.consumer a).2]
      exact hP
  | reconnecting => exact hP
  | reconnected => exact hP
  | update now data =>
    simp only [step]
    split_ifs
    · dsimp only
      rw [(afterConsumer_keeps now _ a).1, (afterConsumer_keeps now _ a).2]
      have hst : (a.consumer._onUpdate data).2.status = a.consumer.status := by
        unfold SignalrConsumer._onUpdate
        cases data.getProp "length" <;> rfl
      rw [hst]
      exact hP
    · exact hP
  | heartbeat now data =>
    simp only [step]
    split_ifs
    · dsimp only
      rw [(afterConsumer_keeps now _ a).1, (afterConsumer_keeps now _ a).2]
      exact hP
    · exact hP

/-- After a sequence of steps in which every call succeeds and no close notification
carries an error, the handlers are attached exactly while the consumer is started, each
once. -/
theorem paired_steps (ss : List ApplicationStep) (a : ApplicationLogic)
    (hP : (a.consumer.status = .stopped ∧ a.listeners = []) ∨
      (a.consumer.status = .started ∧ a.listeners
        = [Listener.onUpdate, Listener.onHeartbeat, Listener.onConnectionStatusChange]))
    (hq : ∀ st ∈ ss, st.isErrorClose = false) (hok : a.allStepsSucceed ss = true) :
    (a.steps ss).listeners = [] ∨ (a.steps ss).listeners
      = [Listener.onUpdate, Listener.onHeartbeat, Listener.onConnectionStatusChange] := by
  induction ss generalizing a with
  | nil =>
    rcases hP with ⟨_, h⟩ | ⟨_, h⟩
    · exact Or.inl h
    · exact Or.inr h
  | cons st rest ih =>
    simp only [allStepsSucceed] at hok
    cases hr : (a.step st).1 with
    | error e => simp [hr] at hok
    | ok u =>
      simp only [hr] at hok
      exact ih (a.step st).2
        (paired_step a st hP (hq st (List.mem_cons_self st rest)) hr)
        (fun x hx => hq x (List.mem_cons_of_mem st hx)) hok

/-- With nothing attached, or each handler attached once, an event emitted by the
consumer runs at most one handler, once: the orchestrator is left as it was, or as the
one handler listening to that event leaves it. -/
theorem deliver_one_paired (now : Int) (e : Event) (a : ApplicationLogic)
    (h : a.listeners = [] ∨ a.listeners
      = [Listener.onUpdate, Listener.onHeartbeat, Listener.onConnectionStatusChange]) :
    deliver now [e] a = a ∨
    deliver now [e] a = (_onUpdate now e.channel e.payload a).2 ∨
    deliver now [e] a = (_onHeartbeat now e.channel e.payload a).2 ∨
    deliver now [e] a = (_onConnectionStatusChange e.channel e.payload a).2 := by
  rcases h with h | h
  · left
    simp [deliver, h]
  · by_cases hd : e.name = "data"
    · right; left
      simp [deliver, h, runListener, hd]
    · by_cases hh : e.name = "heartbeat"
      · right; right; left
        simp [deliver, h, runListener, hh]
      · by_cases hc : e.name = "connectionStatus"
        · right; right; right
          simp [deliver, h, runListener, hc]
        · left
          simp [deliver, h, runListener, hd, hh, hc]

/-- Two `start()` calls that both succeed, with an error-carrying close notification
between them, leave each handler attached twice: the notification returns the consumer
to `stopped` and detaches nothing. -/
theorem error_close_between_starts_attaches_twice :
    (ApplicationLogic.new "inplay").allStepsSucceed
      [.call (.start 1000 (.ok "offset 3 ms") (.ok (some "c1"))),
       .connectionClose 1500 (some (.transportError "connection lost")),
       .call (.start 2000 (.ok "offset 3 ms") (.ok (some "c2")))] = true ∧
    ((ApplicationLogic.new "inplay").steps
      [.call (.start 1000 (.ok "offset 3 ms") (.ok (some "c1"))),
       .connectionClose 1500 (some (.transportError "connection lost")),
       .call (.start 2000 (.ok "offset 3 ms") (.ok (some "c2")))]).listeners
      = [Listener.onUpdate, Listener.onHeartbeat, Listener.onConnectionStatusChange,
         Listener.onUpdate, Listener.onHeartbeat, Listener.onConnectionStatusChange] := by
  exact ⟨rfl, rfl⟩

end ApplicationLogic

open ApplicationLogic in
/-- C23, as the code has it: every `start()` that gets past the clock probe attaches one
more instance of each of the three handlers, also when the consumer's `start()` then
fails; a `start()` whose clock probe fails attaches nothing; a `stop()` detaches one
instance of each handler when the consumer's `stop()` succeeds and none when it fails.
Hence each handler is attached at most once after a sequence of calls that all succeed,
made on a newly constructed orchestrator, when nothing happens between the calls, and
also when the transport notifies the consumer or invokes its handlers between them, as
long as no close notification carries an error; after such a sequence an event emitted
by the consumer runs at most one handler, once. -/
theorem C23_handlers_attached_per_call (a : ApplicationLogic) (l : Listener) :
    (∀ now line connectResult,
      (a.start now (.ok line) connectResult).2.attached l = a.attached l + 1) ∧
    (∀ now e connectResult,
      (a.start now (.error e) connectResult).2.attached l = a.attached l) ∧
    (∀ now closeError, (a.stop now closeError).1 = .ok () →
      (a.stop now closeError).2.attached l = a.attached l - 1) ∧
    (∀ now closeError e, (a.stop now closeError).1 = .error e →
      (a.stop now closeError).2.attached l = a.attached l) ∧
    (∀ channel cs, (ApplicationLogic.new channel).allSucceed cs = true →
      ((ApplicationLogic.new channel).calls cs).attached l ≤ 1) ∧
    (∀ channel ss, (ApplicationLogic.new channel).allStepsSucceed ss = true →
      (∀ st ∈ ss, st.isErrorClose = false) →
      ((ApplicationLogic.new channel).steps ss).attached l ≤ 1) ∧
    (∀ channel ss now e, (ApplicationLogic.new channel).allStepsSucceed ss = true →
      (∀ st ∈ ss, st.isErrorClose = false) →
      deliver now [e] ((ApplicationLogic.new channel).steps ss)
        = (ApplicationLogic.new channel).steps ss ∨
      deliver now [e] ((ApplicationLogic.new channel).steps ss)
        = (_onUpdate now e.channel e.payload ((ApplicationLogic.new channel).steps ss)).2 ∨
      deliver now [e] ((ApplicationLogic.new channel).steps ss)
        = (_onHeartbeat now e.channel e.payload ((ApplicationLogic.new channel).steps ss)).2 ∨
      deliver now [e] ((ApplicationLogic.new channel).steps ss)
        = (_onConnectionStatusChange e.channel e.payload
            ((ApplicationLogic.new channel).steps ss)).2) := by
  refine ⟨?_, ?_, ?_, ?_, ?_, ?_, ?_⟩
  · intro now line connectResult
    simp only [attached, (start_probe_ok now line connectResult a).1]
    cases l <;> simp
  · intro now e connectResult
    rfl
  · intro now closeError hok
    simp only [attached, (stop_listeners now closeError a).2.2.1 hok]
    cases l <;> simp
  · intro now closeError e herr
    simp only [attached, (stop_listeners now closeError a).2.2.2 e herr]
  · intro channel cs hok
    have h := paired_calls cs (ApplicationLogic.new channel) (Or.inl ⟨rfl, rfl⟩) hok
    rcases h with h | h <;> simp only [attached, h] <;> cases l <;> decide
  · intro channel ss hok hq
    have h := paired_steps ss (ApplicationLogic.new channel) (Or.inl ⟨rfl, rfl⟩) hq hok
    rcases h with h | h <;> simp only [attached, h] <;> cases l <;> decide
  · intro channel ss now e hok hq
    exact deliver_one_paired now e _
      (paired_steps ss (ApplicationLogic.new channel) (Or.inl ⟨rfl, rfl⟩) hq hok)

open ApplicationLogic in
/-- Witness of C23: a start, a heartbeat, an empty batch, a close notification without
error, a stop and a second start, the calls all succeeding, leave `_onHeartbeat` attached
at most once; a `stop()` that fails on a newly constructed orchestrator detaches
nothing. -/
theorem C23_handlers_attached_per_call_witness :
    ((ApplicationLogic.new "inplay").steps
      [.call (.start 1000 (.ok "offset 3 ms") (.ok (some "c1"))),
       .heartbeat 1200 (.int 1150), .update 1300 (.arr []), .connectionClose 1500 none,
       .call (.stop 2000 none),
       .call (.start 3000 (.ok "offset 2 ms") (.ok (some "c2")))]).attached .onHeartbeat
      ≤ 1 ∧
    ((ApplicationLogic.new "inplay").calls
      [.start 1000 (.ok "offset 3 ms") (.ok (some "c1")), .stop 2000 none,
       .start 3000 (.ok "offset 2 ms") (.ok (some "c2"))]).attached .onHeartbeat ≤ 1 ∧
    ((ApplicationLogic.new "inplay").stop 2000 none).2.attached .onHeartbeat
      = (ApplicationLogic.new "inplay").attached .onHeartbeat :=
  ⟨(C23_handlers_attached_per_call (ApplicationLogic.new "inplay") .onHeartbeat).2.2.2.2.2.1
      "inplay"
      [.call (.start 1000 (.ok "offset 3 ms") (.ok (some "c1"))),
       .heartbeat 1200 (.int 1150), .update 1300 (.arr []), .connectionClose 1500 none,
       .call (.stop 2000 none),
       .call (.start 3000 (.ok "offset 2 ms") (.ok (some "c2")))] rfl
      (by
        intro st hst
        simp only [List.mem_cons, List.mem_singleton, List.mem_nil_iff, or_false] at hst
        rcases hst with h | h | h | h | h | h <;> subst h <;> rfl),
   (C23_handlers_attached_per_call (ApplicationLogic.new "inplay") .onHeartbeat).2.2.2.2.1
      "inplay"
      [.start 1000 (.ok "offset 3 ms") (.ok (some "c1")), .stop 2000 none,
       .start 3000 (.ok "offset 2 ms") (.ok (some "c2"))] rfl,
   (C23_handlers_attached_per_call (ApplicationLogic.new "inplay") .onHeartbeat).2.2.2.1
      2000 none
      (.extendableError "SignalrConsumer is not started and can not be stopped so" .undefined)
      rfl⟩

open ApplicationLogic in
/-- C23 as stated fails: on a newly constructed orchestrator, a `start()` whose transport
connect fails followed by a `start()` that succeeds leaves each of the three handlers
attached twice, and one `heartbeat` event then causes two calls of `trackHeartbeat`,
which write two log entries. -/
theorem C23_failed_start_attaches_twice_counterexample :
    ((ApplicationLogic.new "inplay").calls
      [.start 1000 (.ok "offset 3 ms") (.error (.transportError "refused")),
       .start 1100 (.ok "offset 3 ms") (.ok (some "c1"))]).attached .onUpdate = 2 ∧
    ((ApplicationLogic.new "inplay").calls
      [.start 1000 (.ok "offset 3 ms") (.error (.transportError "refused")),
       .start 1100 (.ok "offset 3 ms") (.ok (some "c1"))]).attached .onHeartbeat = 2 ∧
    ((ApplicationLogic.new "inplay").calls
      [.start 1000 (.ok "offset 3 ms") (.error (.transportError "refused")),
       .start 1100 (.ok "offset 3 ms") (.ok (some "c1"))]).attached
        .onConnectionStatusChange = 2 ∧
    (deliver 1200 [{ name := "heartbeat", channel := "inplay", payload := .int 1150 }]
      ((ApplicationLogic.new "inplay").calls
        [.start 1000 (.ok "offset 3 ms") (.error (.transportError "refused")),
         .start 1100 (.ok "offset 3 ms") (.ok (some "c1"))])).feedLifecycleTiming.log
      = [{ level := .info, message := "Time from the connection to the first heartbeat: 50 ms" },
         { level := .info, message :=
            "Interval between prev heartbeat: 0 ms, local and server time diff: 50 ms" }] := by
  refine ⟨rfl, rfl, rfl, rfl⟩

/-! ## The outcomes of the consumer's start -/

open SignalrConsumer in
/-- C12, as the code has it: for a stopped consumer, a `start()` whose transport connect
succeeds with connection id `c` returns, leaves the status `started` and the connection
id `c`, and has emitted exactly one event, the `connected` event carrying `c` and the
time `now`; a `start()` whose transport connect fails with `e` throws the start failure
that carries `e`, leaves the status `stopped`, has emitted nothing and leaves the
connection id as it was before the call: the failure path does not clear it. The id is
therefore `null` after a failed `start()` on every stopped consumer reached by a run in
which `start()` is never called while an earlier `start()` is suspended. -/
theorem C12_start_outcomes (s : SignalrConsumer) (now : Int) (hs : s.status = .stopped) :
    (∀ c : Option String,
      (start now (.ok c) s).1 = .ok () ∧
      (start now (.ok c) s).2.status = .started ∧
      (start now (.ok c) s).2.connectionId = c ∧
      (start now (.ok c) s).2.emitted
        = s.emitted ++ [{ name := "connectionStatus", channel := s.channel,
                          payload := statusData "connected" c now }]) ∧
    (∀ e : JsError,
      (start now (.error e) s).1
        = .error (.extendableErrorCausedBy "SignalrConsumer failed to start" e) ∧
      (start now (.error e) s).2.status = .stopped ∧
      (start now (.error e) s).2.connectionId = s.connectionId ∧
      (start now (.error e) s).2.emitted = s.emitted) ∧
    (∀ (channel : String) (steps : List ConsumerStep) (r : ConsumerRun) (e : JsError),
      (ConsumerRun.new channel).runOrderly steps = some r → r.consumer.status = .stopped →
      (start now (.error e) r.consumer).2.status = .stopped ∧
      (start now (.error e) r.consumer).2.connectionId = none) := by
  have hfail : ∀ (x : SignalrConsumer) (e : JsError), x.status = .stopped →
      (start now (.error e) x).1
        = .error (.extendableErrorCausedBy "SignalrConsumer failed to start" e) ∧
      (start now (.error e) x).2.status = .stopped ∧
      (start now (.error e) x).2.connectionId = x.connectionId ∧
      (start now (.error e) x).2.emitted = x.emitted := by
    intro x e hx
    simp [start, startBegin, startResume, isStopped, hx, logAt]
  refine ⟨?_, fun e => hfail s e hs, ?_⟩
  · intro c
    simp [start, startBegin, startResume, isStopped, hs, emit, logAt]
  · intro channel steps r e hrun hst
    have hinv := ConsumerRun.inv_runOrderly steps _ r (ConsumerRun.inv_new channel) hrun
    have hnone : r.consumer.connectionId = none := by
      by_contra hne
      rcases hinv.1 hne with h1 | h1 <;> rw [hst] at h1 <;> exact Status.noConfusion h1
    have h := hfail r.consumer e hst
    exact ⟨h.2.1, h.2.2.1.trans hnone⟩

open SignalrConsumer in
/-- Witness of C12: a newly constructed consumer whose transport connect succeeds with
connection id `c1`, and a consumer that was started and stopped and whose next transport
connect is refused. -/
theorem C12_start_outcomes_witness :
    (SignalrConsumer.new "inplay").status = .stopped ∧
    (start 1000 (.ok (some "c1")) (SignalrConsumer.new "inplay")).2.status = .started ∧
    (start 1000 (.ok (some "c1")) (SignalrConsumer.new "inplay")).2.connectionId
      = some "c1" ∧
    (∃ r, (ConsumerRun.new "inplay").runOrderly
        [.callStart, .startSettles 1000 (.ok (some "c1")), .callStop,
         .stopSettles 2000 none] = some r ∧
      (start 3000 (.error (.transportError "refused")) r.consumer).2.connectionId = none) :=
  ⟨rfl,
   ((C12_start_outcomes (SignalrConsumer.new "inplay") 1000 rfl).1 (some "c1")).2.1,
   ((C12_start_outcomes (SignalrConsumer.new "inplay") 1000 rfl).1 (some "c1")).2.2.1,
   ⟨_, rfl,
    ((C12_start_outcomes (SignalrConsumer.new "inplay") 3000 rfl).2.2 "inplay"
      [.callStart, .startSettles 1000 (.ok (some "c1")), .callStop,
       .stopSettles 2000 none] _ (.transportError "refused") rfl rfl).2⟩⟩

open SignalrConsumer in
/-- C12 as stated fails: a consumer left `stopped` and holding the connection id `c1` (a
first `start()` is suspended, an error-carrying close notification returns the status to
`stopped`, a second `start()` connects with `c1`, the first then fails) is in state
`stopped`; a `start()` on it whose transport connect is refused leaves the status
`stopped` and the connection id `c1`, not `null`. -/
theorem C12_failed_start_keeps_connectionId_counterexample :
    (((ConsumerRun.new "inplay").run
        [.callStart, .connectionClose 900 (some (.transportError "connection lost")),
         .callStart, .startSettles 1000 (.ok (some "c1")),
         .startSettles 1001 (.error (.transportError "timeout"))]).map
      (fun r => (r.consumer.status,
        (start 2000 (.error (.transportError "refused")) r.consumer).2.status,
        (start 2000 (.error (.transportError "refused")) r.consumer).2.connectionId)))
      = some (.stopped, .stopped, some "c1") := by
  rfl

end BeterFeedConsumer
